import Mathlib

/-!
# Planar water renderer (`src/render/render_gl_water.c`)

A shallow embedding of the water renderer: the clip planes and the camera
mirror of the two offscreen passes, the aspect-matched texture height, the
model matrix of the compositor, and the resource discipline of
`R_GL_WaterInit`, `R_GL_WaterShutdown` and `R_GL_DrawWater` over an explicit
state of the graphics device.

Conventions.
* A `float` is a rational number, and every operation on `float`s is the exact
  operation followed by the rounding `f32` of binary32 (round to nearest, ties
  to even). Infinities and NaN are not values of the model: where the source
  can produce one, the definition says how the case is treated.
* `GLint`/`int` values are `ℤ`, products of `int`s wrap to 32 bits, object
  names (`GLuint`) are `ℕ`.
* A function that can stop at a failed `assert` returns `Option`; `none` means
  that it does not return.
-/

namespace Water

/-! ## Arithmetic of the machine -/

/-- Rounding of a rational number to the nearest integer, a tie going to the
even one. -/
def round_half_even (t : ℚ) : ℤ :=
  if t - ⌊t⌋ < 1 / 2 then ⌊t⌋
  else if 1 / 2 < t - ⌊t⌋ then ⌊t⌋ + 1
  else if ⌊t⌋ % 2 = 0 then ⌊t⌋ else ⌊t⌋ + 1

/-- The spacing of the binary32 numbers around `x`: `2^(e - 23)` where `e` is
the exponent of `x`, `⌊log₂ |x|⌋`, and at least `-126` (below `2^-126` the
numbers are subnormal and keep the spacing `2^-149`). -/
def f32_ulp (x : ℚ) : ℚ := (2 : ℚ) ^ (max (Int.log 2 |x|) (-126) - 23)

/-- The binary32 number nearest to `x`, a tie going to the one with an even
significand: the result of a `float` operation whose exact result is `x`. A
result beyond the largest finite `float`, which the machine replaces by an
infinity, is kept finite. -/
def f32 (x : ℚ) : ℚ := round_half_even (x / f32_ulp x) * f32_ulp x

/-- The conversion of an `int` to `float`. -/
def int_to_float (n : ℤ) : ℚ := f32 (n : ℚ)

/-- The constant `INT_MIN`. -/
def INT_MIN : ℤ := -2147483648

/-- The constant `INT_MAX`. -/
def INT_MAX : ℤ := 2147483647

/-- The conversion of a finite `float` to `int`: the fractional part is
discarded (truncation toward zero). For a value whose integer part is not an
`int` the conversion is undefined in C; the value kept is `INT_MIN`, which is
what the conversion instruction of x86 gives. -/
def float_to_int (q : ℚ) : ℤ :=
  let t : ℤ := if 0 ≤ q then ⌊q⌋ else ⌈q⌉
  if INT_MIN ≤ t ∧ t ≤ INT_MAX then t else INT_MIN

/-- The product of two `int`s. A product that is not an `int` is undefined in
C; the value kept is the one of two's complement arithmetic on 32 bits. -/
def int_mul (a b : ℤ) : ℤ := (a * b + 2147483648) % 4294967296 - 2147483648

/-! ## Vectors, constants of the headers -/

/-- The C type `vec3_t`: three `float`s. -/
structure vec3_t where
  x : ℚ
  y : ℚ
  z : ℚ
  deriving DecidableEq

/-- The C type `vec4_t`: four `float`s. -/
structure vec4_t where
  x : ℚ
  y : ℚ
  z : ℚ
  w : ℚ
  deriving DecidableEq

/-- The macros `X_COORDS_PER_TILE`, `Y_COORDS_PER_TILE`, `Z_COORDS_PER_TILE` of
`map/public/tile.h`. The header is not part of the sources, so the three
constants are parameters of the development. -/
structure TileConsts where
  X_COORDS_PER_TILE : ℤ
  Y_COORDS_PER_TILE : ℤ
  Z_COORDS_PER_TILE : ℤ
  deriving DecidableEq

/-- The macro `WATER_LVL`: `(-1.0f * Y_COORDS_PER_TILE + 2.0f)`. -/
def WATER_LVL (K : TileConsts) : ℚ := f32 (f32 (-1 * int_to_float K.Y_COORDS_PER_TILE) + 2)

/-- The macro `WBUFF_RES_X`: `800`. -/
def WBUFF_RES_X : ℤ := 800

/-- The macro `DUDV_PATH`. -/
def DUDV_PATH : String := "assets/water_textures/dudvmap.png"

/-- The macro `NORM_PATH`. -/
def NORM_PATH : String := "assets/water_textures/normalmap.png"

/-- The enumerator `GL_TEXTURE0`, as the index of the texture unit. -/
def GL_TEXTURE0 : ℕ := 0

/-- The enumerator `GL_TEXTURE1`, as the index of the texture unit. -/
def GL_TEXTURE1 : ℕ := 1

/-! ## Clip planes of the two passes -/

/-- The plane of `render_refraction_tex`:
`vec4_t plane_eq = (vec4_t){0.0f, -1.0f, 0.0f, WATER_LVL};`. -/
def refraction_plane_eq (K : TileConsts) : vec4_t := ⟨0, -1, 0, WATER_LVL K⟩

/-- The plane of `render_reflection_tex`:
`vec4_t plane_eq = (vec4_t){0.0f, 1.0f, 0.0f, WATER_LVL};`. -/
def reflection_plane_eq (K : TileConsts) : vec4_t := ⟨0, 1, 0, WATER_LVL K⟩

/-- The signed clip distance of a world point to a plane `(a, b, c, d)`:
`a*x + b*y + c*z + d`. -/
def clip_distance (plane : vec4_t) (p : vec3_t) : ℚ :=
  plane.x * p.x + plane.y * p.y + plane.z * p.z + plane.w

/-- A point is accepted by a clip plane when its clip distance is not
negative. -/
def clip_accepts (plane : vec4_t) (p : vec3_t) : Prop := 0 ≤ clip_distance plane p

instance (plane : vec4_t) (p : vec3_t) : Decidable (clip_accepts plane p) := by
  unfold clip_accepts; infer_instance

/-! ## The camera mirror of the reflection pass -/

/-- The statement `cam_pos.y -= (cam_pos.y - WATER_LVL) * 2.0f;` of
`render_reflection_tex`. -/
def mirror_cam_pos (K : TileConsts) (cam_pos : vec3_t) : vec3_t :=
  { cam_pos with y := f32 (cam_pos.y - f32 (f32 (cam_pos.y - WATER_LVL K) * 2)) }

/-- The statement `cam_dir.y *= -1.0f;` of `render_reflection_tex`. -/
def mirror_cam_dir (cam_dir : vec3_t) : vec3_t :=
  { cam_dir with y := f32 (cam_dir.y * -1) }

/-- The viewport rectangle, `GLint viewport[4]` as read by
`glGetIntegerv(GL_VIEWPORT, ...)`: x, y, width, height. -/
structure Viewport where
  x : ℤ
  y : ℤ
  width : ℤ
  height : ℤ
  deriving DecidableEq

/-- A live texture object: its name and the size of its level 0 image. -/
structure TexObj where
  name : ℕ
  width : ℤ
  height : ℤ
  deriving DecidableEq

/-- A live renderbuffer object: its name and the size of its storage. -/
structure RbObj where
  name : ℕ
  width : ℤ
  height : ℤ
  deriving DecidableEq

/-- A live framebuffer object: its name, the texture attached as
`GL_COLOR_ATTACHMENT0` and the renderbuffer attached as `GL_DEPTH_ATTACHMENT`
(`0`: nothing attached). -/
structure FbObj where
  name : ℕ
  color : ℕ
  depth : ℕ
  deriving DecidableEq

/-- A live buffer object: its name and the vertex positions stored in it. -/
structure BufObj where
  name : ℕ
  data : List vec3_t
  deriving DecidableEq

/-- The C type `struct texture` of `texture.h`: `id` and `tunit`. -/
structure texture where
  id : ℕ
  tunit : ℕ
  deriving DecidableEq

/-- The C type `struct mesh` of `mesh.h`: `VAO`, `VBO` and `num_verts`. -/
structure mesh where
  VAO : ℕ
  VBO : ℕ
  num_verts : ℕ
  deriving DecidableEq

/-- The C type `struct render_water_ctx`. -/
structure render_water_ctx where
  surface : mesh
  dudv : texture
  normal : texture
  deriving DecidableEq

/-- The C type `struct water_gl_state`. -/
structure water_gl_state where
  viewport : Viewport
  fb : ℕ
  deriving DecidableEq

/-- Modelled from the spec: `struct camera` of `camera.h` is not part of the
sources. The camera service sets a position and a direction
(`set_position`, `set_direction`); these two are the fields kept. -/
structure camera where
  pos : vec3_t
  dir : vec3_t
  deriving DecidableEq

/-- The C type `mat4x4_t`. -/
abbrev mat4x4_t := Matrix (Fin 4) (Fin 4) ℚ

/-- The calls whose arguments the claims observe, recorded in the order in
which they are made. -/
inductive Event where
  /-- A call of `glTexImage2D` gave the texture `name` an image of the given size. -/
  | tex_image (name : ℕ) (width height : ℤ)
  /-- A call of `G_RenderMapAndEntities` ran with this framebuffer bound, this viewport,
  this clip plane (when `GL_CLIP_DISTANCE0` is enabled) and this shared camera
  transform. -/
  | render_scene (fb : ℕ) (viewport : Viewport) (clip : Option vec4_t) (cam : camera)
  /-- A call of `glUniform4fv` for `GL_U_COLOR`. -/
  | uniform_color (prog : ℕ) (color : vec4_t)
  /-- A call of `R_Texture_GL_Activate`. -/
  | activate (tex : texture) (prog : ℕ)
  /-- A call of `glUniformMatrix4fv` for `GL_U_MODEL`. -/
  | uniform_model (prog : ℕ) (model : mat4x4_t)
  /-- A call of `glDrawArrays(GL_TRIANGLES, 0, count)` with this vertex array bound. -/
  | draw_arrays (prog : ℕ) (vao : ℕ) (count : ℕ)

/-- The texture that a recorded call gave an image to, when the call is one of
`glTexImage2D`. -/
def Event.tex_image_name : Event → Option ℕ
  | .tex_image name _ _ => some name
  | _ => none

/-- The state the water renderer reads and writes: the graphics device, the
services of the engine it calls, and its static context `s_ctx`. -/
structure State where
  /-- The value of `GL_VIEWPORT`. -/
  viewport : Viewport
  /-- The value of `GL_FRAMEBUFFER_BINDING`. -/
  fb_binding : ℕ
  /-- The value of `GL_ACTIVE_TEXTURE`, as the index of the unit. -/
  active_texture : ℕ
  /-- The value of `GL_TEXTURE_BINDING_2D` of every texture unit. -/
  tex_binding : ℕ → ℕ
  /-- The value of `GL_RENDERBUFFER_BINDING`. -/
  rb_binding : ℕ
  /-- The value of `GL_VERTEX_ARRAY_BINDING`. -/
  vao_binding : ℕ
  /-- The value of `GL_ARRAY_BUFFER_BINDING`. -/
  array_buffer_binding : ℕ
  /-- The value of `GL_CURRENT_PROGRAM`. -/
  program : ℕ
  /-- Whether `GL_CLIP_DISTANCE0` is enabled. -/
  clip_distance0 : Bool
  /-- Whether the error flag read by `glGetError` is set. -/
  gl_error : Bool
  /-- The live texture objects. -/
  textures : List TexObj
  /-- The live framebuffer objects. -/
  framebuffers : List FbObj
  /-- The live renderbuffer objects. -/
  renderbuffers : List RbObj
  /-- The names of the live vertex array objects. -/
  vaos : List ℕ
  /-- The live buffer objects. -/
  buffers : List BufObj
  /-- The plane last given to `R_GL_SetClipPlane`. -/
  clip_plane : vec4_t
  /-- Texture service: the paths whose image loads. -/
  assets : List String
  /-- Texture service: the textures loaded and not freed, by path. -/
  tex_cache : List (String × ℕ)
  /-- Shader service: the programs by name. -/
  shaders : List (String × ℕ)
  /-- Game: the position of the active camera. -/
  active_cam_pos : vec3_t
  /-- Game: the direction of the active camera. -/
  active_cam_dir : vec3_t
  /-- Camera service: the camera last given to `Camera_TickFinishPerspective`. -/
  shared_cam : camera
  /-- The static variable `s_ctx`. -/
  s_ctx : render_water_ctx
  /-- The calls recorded so far, oldest first. -/
  log : List Event

/-- The function `height_for_width`:
`float ar = (float)viewport[2] / viewport[3]; return width / ar;`.
Both divisions are `float` divisions of the converted integers, and the
quotient is converted to `int`. When the width of the viewport is zero `ar`
is zero or not a number, the quotient `width / ar` is infinite or not a
number, and its conversion gives `INT_MIN`. Otherwise, when the height of the
viewport is zero `ar` is infinite and the quotient is zero. -/
def height_for_width (s : State) (width : ℤ) : ℤ :=
  if s.viewport.width = 0 then INT_MIN
  else if s.viewport.height = 0 then 0
  else
    let ar : ℚ := f32 (int_to_float s.viewport.width / int_to_float s.viewport.height)
    float_to_int (f32 (int_to_float width / ar))

/-! ## Object names -/

/-- A name that is not in use, as the `glGen*` calls return one: one more than
the largest name in use, and so never `0`. -/
def fresh_name (used : List ℕ) : ℕ := used.foldr max 0 + 1

/-! ## The calls of the graphics library

Each call is a function on the state. Calls without an effect on the state
kept here (`glTexParameteri`, `glDrawBuffers`, `glClear`,
`glVertexAttribPointer`, `glEnableVertexAttribArray`) are left out and named
in a comment at the place of the call. The `glDelete*` calls ignore the name
`0` and names that are not the name of an object of their kind. -/

/-- The texture bound to `GL_TEXTURE_2D` in the active texture unit. -/
def bound_texture (s : State) : ℕ := s.tex_binding s.active_texture

/-- The call `glGenTextures(1, &name)`: the new name and the state after it. -/
def glGenTextures (s : State) : ℕ × State :=
  let n := fresh_name (s.textures.map TexObj.name)
  (n, { s with textures := ⟨n, 0, 0⟩ :: s.textures })

/-- The call `glActiveTexture(GL_TEXTURE0 + unit)`. -/
def glActiveTexture (unit : ℕ) (s : State) : State :=
  { s with active_texture := unit }

/-- The call `glBindTexture(GL_TEXTURE_2D, tex)`. -/
def glBindTexture (tex : ℕ) (s : State) : State :=
  { s with tex_binding := Function.update s.tex_binding s.active_texture tex }

/-- The call `glTexImage2D(GL_TEXTURE_2D, 0, GL_RGB, width, height, ...)`: the
bound texture gets an image of this size; a negative size is the error
`GL_INVALID_VALUE` and changes nothing else. -/
def glTexImage2D (width height : ℤ) (s : State) : State :=
  if width < 0 ∨ height < 0 then { s with gl_error := true }
  else
    { s with
      textures := s.textures.map fun t =>
        if t.name = bound_texture s then { t with width := width, height := height } else t
      log := s.log ++ [Event.tex_image (bound_texture s) width height] }

/-- The call `glGetTexLevelParameteriv(GL_TEXTURE_2D, 0, GL_TEXTURE_WIDTH, &w)`. -/
def glGetTexLevelParameteriv_WIDTH (s : State) : ℤ :=
  match s.textures.find? (fun t => t.name = bound_texture s) with
  | some t => t.width
  | none => 0

/-- The call `glGetTexLevelParameteriv(GL_TEXTURE_2D, 0, GL_TEXTURE_HEIGHT, &h)`. -/
def glGetTexLevelParameteriv_HEIGHT (s : State) : ℤ :=
  match s.textures.find? (fun t => t.name = bound_texture s) with
  | some t => t.height
  | none => 0

/-- The call `glDeleteTextures(1, &tex)`: the texture is no longer live, every
unit it was bound in is bound to `0`, and it is detached from the bound
framebuffer. -/
def glDeleteTextures (tex : ℕ) (s : State) : State :=
  if tex = 0 then s
  else
    { s with
      textures := s.textures.filter fun t => t.name ≠ tex
      tex_binding := fun u => if s.tex_binding u = tex then 0 else s.tex_binding u
      framebuffers := s.framebuffers.map fun f =>
        if f.name = s.fb_binding ∧ f.color = tex then { f with color := 0 } else f }

/-- The call `glGenFramebuffers(1, &fb)`. -/
def glGenFramebuffers (s : State) : ℕ × State :=
  let n := fresh_name (s.framebuffers.map FbObj.name)
  (n, { s with framebuffers := ⟨n, 0, 0⟩ :: s.framebuffers })

/-- The call `glBindFramebuffer(GL_FRAMEBUFFER, fb)`. -/
def glBindFramebuffer (fb : ℕ) (s : State) : State :=
  { s with fb_binding := fb }

/-- The call `glDeleteFramebuffers(1, &fb)`: deleting the bound framebuffer
binds the framebuffer `0`. -/
def glDeleteFramebuffers (fb : ℕ) (s : State) : State :=
  if fb = 0 then s
  else
    { s with
      framebuffers := s.framebuffers.filter fun f => f.name ≠ fb
      fb_binding := if s.fb_binding = fb then 0 else s.fb_binding }

/-- The call `glGenRenderbuffers(1, &rb)`. -/
def glGenRenderbuffers (s : State) : ℕ × State :=
  let n := fresh_name (s.renderbuffers.map RbObj.name)
  (n, { s with renderbuffers := ⟨n, 0, 0⟩ :: s.renderbuffers })

/-- The call `glBindRenderbuffer(GL_RENDERBUFFER, rb)`. -/
def glBindRenderbuffer (rb : ℕ) (s : State) : State :=
  { s with rb_binding := rb }

/-- The call `glRenderbufferStorage(GL_RENDERBUFFER, GL_DEPTH_COMPONENT, width,
height)`: the bound renderbuffer gets storage of this size; a negative size is
the error `GL_INVALID_VALUE`. -/
def glRenderbufferStorage (width height : ℤ) (s : State) : State :=
  if width < 0 ∨ height < 0 then { s with gl_error := true }
  else
    { s with
      renderbuffers := s.renderbuffers.map fun r =>
        if r.name = s.rb_binding then { r with width := width, height := height } else r }

/-- The call `glFramebufferRenderbuffer(GL_FRAMEBUFFER, GL_DEPTH_ATTACHMENT,
GL_RENDERBUFFER, rb)` on the bound framebuffer. -/
def glFramebufferRenderbuffer (rb : ℕ) (s : State) : State :=
  { s with
    framebuffers := s.framebuffers.map fun f =>
      if f.name = s.fb_binding then { f with depth := rb } else f }

/-- The call `glFramebufferTexture(GL_FRAMEBUFFER, GL_COLOR_ATTACHMENT0, tex, 0)`
on the bound framebuffer. -/
def glFramebufferTexture (tex : ℕ) (s : State) : State :=
  { s with
    framebuffers := s.framebuffers.map fun f =>
      if f.name = s.fb_binding then { f with color := tex } else f }

/-- The test `glCheckFramebufferStatus(GL_FRAMEBUFFER) == GL_FRAMEBUFFER_COMPLETE`:
the bound framebuffer object is complete when its colour attachment is a live
texture and its depth attachment a live renderbuffer, both of non-zero width
and height. The framebuffer `0` is the one of the window. -/
def framebuffer_complete (s : State) : Bool :=
  if s.fb_binding = 0 then true
  else
    match s.framebuffers.find? (fun f => f.name = s.fb_binding) with
    | none => false
    | some f =>
      match s.textures.find? (fun t => t.name = f.color),
        s.renderbuffers.find? (fun r => r.name = f.depth) with
      | some t, some r => 0 < t.width ∧ 0 < t.height ∧ 0 < r.width ∧ 0 < r.height
      | _, _ => false

/-- The call `glDeleteRenderbuffers(1, &rb)`: the renderbuffer is no longer
live, is unbound, and is detached from the bound framebuffer. -/
def glDeleteRenderbuffers (rb : ℕ) (s : State) : State :=
  if rb = 0 then s
  else
    { s with
      renderbuffers := s.renderbuffers.filter fun r => r.name ≠ rb
      rb_binding := if s.rb_binding = rb then 0 else s.rb_binding
      framebuffers := s.framebuffers.map fun f =>
        if f.name = s.fb_binding ∧ f.depth = rb then { f with depth := 0 } else f }

/-- The call `glEnable(GL_CLIP_DISTANCE0)`. -/
def glEnable_CLIP_DISTANCE0 (s : State) : State := { s with clip_distance0 := true }

/-- The call `glDisable(GL_CLIP_DISTANCE0)`. -/
def glDisable_CLIP_DISTANCE0 (s : State) : State := { s with clip_distance0 := false }

/-- The call `glViewport(x, y, width, height)`: a negative width or height is
the error `GL_INVALID_VALUE` and leaves the viewport as it is. -/
def glViewport (x y width height : ℤ) (s : State) : State :=
  if width < 0 ∨ height < 0 then { s with gl_error := true }
  else { s with viewport := ⟨x, y, width, height⟩ }

/-- The call `glGenVertexArrays(1, &vao)`. -/
def glGenVertexArrays (s : State) : ℕ × State :=
  let n := fresh_name s.vaos
  (n, { s with vaos := n :: s.vaos })

/-- The call `glBindVertexArray(vao)`. -/
def glBindVertexArray (vao : ℕ) (s : State) : State :=
  { s with vao_binding := vao }

/-- The call `glGenBuffers(1, &buf)`. -/
def glGenBuffers (s : State) : ℕ × State :=
  let n := fresh_name (s.buffers.map BufObj.name)
  (n, { s with buffers := ⟨n, []⟩ :: s.buffers })

/-- The call `glBindBuffer(GL_ARRAY_BUFFER, buf)`. -/
def glBindBuffer (buf : ℕ) (s : State) : State :=
  { s with array_buffer_binding := buf }

/-- The call `glBufferData(GL_ARRAY_BUFFER, size, data, GL_STATIC_DRAW)`: the
bound buffer holds the vertices. -/
def glBufferData (data : List vec3_t) (s : State) : State :=
  { s with
    buffers := s.buffers.map fun b =>
      if b.name = s.array_buffer_binding then { b with data := data } else b }

/-- The call `glDeleteBuffers(1, &buf)`: it deletes buffer objects only; a
name that is not the name of a buffer object is ignored. -/
def glDeleteBuffers (buf : ℕ) (s : State) : State :=
  if buf = 0 then s
  else
    { s with
      buffers := s.buffers.filter fun b => b.name ≠ buf
      array_buffer_binding := if s.array_buffer_binding = buf then 0 else s.array_buffer_binding }

/-- The call `glUseProgram(prog)`. -/
def glUseProgram (prog : ℕ) (s : State) : State := { s with program := prog }

/-- The call `glUniform4fv(loc, 1, v)` for the uniform `GL_U_COLOR` of the
program in use. -/
def glUniform4fv_COLOR (v : vec4_t) (s : State) : State :=
  { s with log := s.log ++ [Event.uniform_color s.program v] }

/-- The call `glUniformMatrix4fv(loc, 1, GL_FALSE, m)` for the uniform
`GL_U_MODEL` of the program in use. -/
def glUniformMatrix4fv_MODEL (m : mat4x4_t) (s : State) : State :=
  { s with log := s.log ++ [Event.uniform_model s.program m] }

/-- The call `glDrawArrays(GL_TRIANGLES, 0, count)`. -/
def glDrawArrays (count : ℕ) (s : State) : State :=
  { s with log := s.log ++ [Event.draw_arrays s.program s.vao_binding count] }

/-- A C `assert`: the program stops when the condition is false. -/
def assert (c : Bool) : Option Unit := if c then some () else none

/-- The macro `GL_ASSERT_OK()` of `gl_assert.h`: an `assert` that `glGetError`
reports no error. -/
def GL_ASSERT_OK (s : State) : Option Unit := assert (!s.gl_error)

/-! ## The services of the engine

The functions of this section belong to other files of the engine (the
texture, shader, camera, map, scene and math modules); they are given here
as the spec describes them. -/

/-- Modelled from the spec: `R_Texture_Load` of the texture service,
`load(basepath, relative_path) -> handle | failure`. A path whose image loads
gets a new texture, kept by the service under the path; a path whose image
does not load gets nothing and the state is as before. The image itself is
not kept. -/
def R_Texture_Load (path : String) (s : State) : Option ℕ × State :=
  if path ∈ s.assets then
    let r := glGenTextures s
    (some r.1, { r.2 with tex_cache := (path, r.1) :: r.2.tex_cache })
  else (none, s)

/-- Modelled from the spec: `R_Texture_Free` of the texture service,
`free(path)`: the texture the service keeps under the path is deleted and
forgotten. -/
def R_Texture_Free (path : String) (s : State) : State :=
  match s.tex_cache.lookup path with
  | none => s
  | some id => glDeleteTextures id { s with tex_cache := s.tex_cache.erase (path, id) }

/-- Modelled from the spec: `R_Texture_GL_Activate` of the texture service,
`activate(texture, shader_program)`: the texture is bound in its own texture
unit. -/
def R_Texture_GL_Activate (tex : texture) (shader_prog : ℕ) (s : State) : State :=
  let s1 := glBindTexture tex.id (glActiveTexture tex.tunit s)
  { s1 with log := s1.log ++ [Event.activate tex shader_prog] }

/-- Modelled from the spec: `R_Shader_GetProgForName` of the shader service,
`get_program_for_name(name) -> program_handle`. -/
def R_Shader_GetProgForName (name : String) (s : State) : ℕ :=
  (s.shaders.lookup name).getD 0

/-- Modelled from the spec: `R_GL_SetClipPlane`, which sets the equation of
the single user clip plane. -/
def R_GL_SetClipPlane (plane_eq : vec4_t) (s : State) : State :=
  { s with clip_plane := plane_eq }

/-- Modelled from the spec: `G_RenderMapAndEntities` of the scene service,
which "renders the full scene into whatever render target is currently bound"
and respects the enabled clip plane. The call is recorded with the
framebuffer, the viewport, the clip plane and the camera transform it runs
under. -/
def G_RenderMapAndEntities (s : State) : State :=
  { s with
    log := s.log ++ [Event.render_scene s.fb_binding s.viewport
      (if s.clip_distance0 then some s.clip_plane else none) s.shared_cam] }

/-- Modelled from the spec: `G_ActiveCamPos`, `active_position() -> vec3`. -/
def G_ActiveCamPos (s : State) : vec3_t := s.active_cam_pos

/-- Modelled from the spec: `G_ActiveCamDir`, `active_direction() -> vec3`. -/
def G_ActiveCamDir (s : State) : vec3_t := s.active_cam_dir

/-- The camera after `DECL_CAMERA_STACK(cam); memset(cam, 0, sizeof(cam));`. -/
def camera_zero : camera := ⟨⟨0, 0, 0⟩, ⟨0, 0, 0⟩⟩

/-- Modelled from the spec: `Camera_SetPos`, `set_position`. -/
def Camera_SetPos (cam : camera) (pos : vec3_t) : camera := { cam with pos := pos }

/-- Modelled from the spec: `Camera_SetDir`, `set_direction`. -/
def Camera_SetDir (cam : camera) (dir : vec3_t) : camera := { cam with dir := dir }

/-- Modelled from the spec: `Camera_TickFinishPerspective`,
`finalize_perspective()`: the shared camera transform of the shader pipeline
becomes the one of this camera. -/
def Camera_TickFinishPerspective (cam : camera) (s : State) : State :=
  { s with shared_cam := cam }

/-- The C type `struct map_resolution` of `map/public/map.h`. -/
structure map_resolution where
  chunk_w : ℤ
  chunk_h : ℤ
  tile_w : ℤ
  tile_h : ℤ
  deriving DecidableEq

/-- Modelled from the spec: `struct map`, of which the map service gives the
centre (`center_position(map) -> vec3`) and the resolution
(`resolution(map) -> {chunk dimensions, tile dimensions}`). -/
structure map where
  center_pos : vec3_t
  res : map_resolution
  deriving DecidableEq

/-- Modelled from the spec: `M_GetCenterPos`. -/
def M_GetCenterPos (m : map) : vec3_t := m.center_pos

/-- Modelled from the spec: `M_GetResolution`. -/
def M_GetResolution (m : map) : map_resolution := m.res

/-- Modelled from the spec: `PFM_Mat4x4_MakeTrans`, the matrix of the
translation by `(tx, ty, tz)`. -/
def PFM_Mat4x4_MakeTrans (tx ty tz : ℚ) : mat4x4_t :=
  !![1, 0, 0, tx; 0, 1, 0, ty; 0, 0, 1, tz; 0, 0, 0, 1]

/-- Modelled from the spec: `PFM_Mat4x4_MakeScale`, the matrix of the scaling
by `(s1, s2, s3)`. -/
def PFM_Mat4x4_MakeScale (s1 s2 s3 : ℚ) : mat4x4_t :=
  !![s1, 0, 0, 0; 0, s2, 0, 0; 0, 0, s3, 0; 0, 0, 0, 1]

/-- Modelled from the spec: `PFM_Mat4x4_Mult4x4(op1, op2, out)`, the product
`op1 × op2`. For the translation and the scaling that `R_GL_DrawWater`
multiplies, every entry of the product is one entry of an operand times `1`
plus zeros, so that no rounding takes place. -/
def PFM_Mat4x4_Mult4x4 (op1 op2 : mat4x4_t) : mat4x4_t := op1 * op2

/-- The image of a point under a model matrix: the first three coordinates
of the matrix applied to `(x, y, z, 1)`. -/
def transform_point (m : mat4x4_t) (p : vec3_t) : vec3_t :=
  ⟨m 0 0 * p.x + m 0 1 * p.y + m 0 2 * p.z + m 0 3,
   m 1 0 * p.x + m 1 1 * p.y + m 1 2 * p.z + m 1 3,
   m 2 0 * p.x + m 2 1 * p.y + m 2 2 * p.z + m 2 3⟩

/-! ## The static functions of `render_gl_water.c` -/

/-- The function `save_gl_state`. -/
def save_gl_state (s : State) : water_gl_state :=
  ⟨s.viewport, s.fb_binding⟩

/-- The function `restore_gl_state`. -/
def restore_gl_state (inp : water_gl_state) (s : State) : State :=
  let s := glBindFramebuffer inp.fb s
  let s := glViewport inp.viewport.x inp.viewport.y inp.viewport.width inp.viewport.height s
  let cam := camera_zero
  let cam := Camera_SetPos cam (G_ActiveCamPos s)
  let cam := Camera_SetDir cam (G_ActiveCamDir s)
  Camera_TickFinishPerspective cam s

/-- The function `make_new_tex`. -/
def make_new_tex (width height : ℤ) (s : State) : Option (ℕ × State) := do
  let r := glGenTextures s
  let ret := r.1
  let s := glBindTexture ret r.2
  let s := glTexImage2D width height s
  -- glTexParameteri(GL_TEXTURE_2D, GL_TEXTURE_MAG_FILTER, GL_LINEAR);
  -- glTexParameteri(GL_TEXTURE_2D, GL_TEXTURE_MIN_FILTER, GL_LINEAR);
  GL_ASSERT_OK s
  return (ret, s)

/-- The function `render_refraction_tex`. -/
def render_refraction_tex (K : TileConsts) (tex : ℕ) (s : State) : Option State := do
  let s := glBindTexture tex s
  let texw := glGetTexLevelParameteriv_WIDTH s
  let texh := glGetTexLevelParameteriv_HEIGHT s
  -- Create framebuffer object
  let r := glGenFramebuffers s
  let fb := r.1
  let s := glBindFramebuffer fb r.2
  let r := glGenRenderbuffers s
  let depth_rb := r.1
  let s := glBindRenderbuffer depth_rb r.2
  let s := glRenderbufferStorage texw texh s
  let s := glFramebufferRenderbuffer depth_rb s
  let s := glFramebufferTexture tex s
  -- glDrawBuffers(ARR_SIZE(draw_buffs), draw_buffs);
  assert (framebuffer_complete s)
  -- Clip everything above the water surface
  let s := glEnable_CLIP_DISTANCE0 s
  let plane_eq := refraction_plane_eq K
  let s := R_GL_SetClipPlane plane_eq s
  -- Render to the texture
  let s := glViewport 0 0 texw texh s
  -- glClear(GL_COLOR_BUFFER_BIT | GL_DEPTH_BUFFER_BIT);
  let s := G_RenderMapAndEntities s
  -- Clean up framebuffer
  let s := glDeleteRenderbuffers depth_rb s
  let s := glDeleteFramebuffers fb s
  let s := glDisable_CLIP_DISTANCE0 s
  GL_ASSERT_OK s
  return s

/-- The function `render_reflection_tex`. -/
def render_reflection_tex (K : TileConsts) (tex : ℕ) (s : State) : Option State := do
  let s := glBindTexture tex s
  let texw := glGetTexLevelParameteriv_WIDTH s
  let texh := glGetTexLevelParameteriv_HEIGHT s
  let cam := camera_zero
  let cam_pos := G_ActiveCamPos s
  let cam_dir := G_ActiveCamDir s
  let cam_pos := mirror_cam_pos K cam_pos
  let cam_dir := mirror_cam_dir cam_dir
  let cam := Camera_SetPos cam cam_pos
  let cam := Camera_SetDir cam cam_dir
  let s := Camera_TickFinishPerspective cam s
  -- Create framebuffer object
  let r := glGenFramebuffers s
  let fb := r.1
  let s := glBindFramebuffer fb r.2
  let r := glGenRenderbuffers s
  let depth_rb := r.1
  let s := glBindRenderbuffer depth_rb r.2
  let s := glRenderbufferStorage texw texh s
  let s := glFramebufferRenderbuffer depth_rb s
  let s := glFramebufferTexture tex s
  -- glDrawBuffers(ARR_SIZE(draw_buffs), draw_buffs);
  assert (framebuffer_complete s)
  -- Clip everything below the water surface
  let s := glEnable_CLIP_DISTANCE0 s
  let plane_eq := reflection_plane_eq K
  let s := R_GL_SetClipPlane plane_eq s
  -- Render to the texture
  let s := glViewport 0 0 texw texh s
  -- glClear(GL_COLOR_BUFFER_BIT | GL_DEPTH_BUFFER_BIT);
  let s := G_RenderMapAndEntities s
  -- Clean up framebuffer
  let s := glDeleteRenderbuffers depth_rb s
  let s := glDeleteFramebuffers fb s
  let s := glDisable_CLIP_DISTANCE0 s
  GL_ASSERT_OK s
  return s

/-! ## The extern functions of `render_gl_water.c` -/

/-- The array `vbuff` of `R_GL_WaterInit`: `tl, bl, tr, bl, br, tr`. -/
def water_vbuff (K : TileConsts) : List vec3_t :=
  let tl : vec3_t := ⟨1, WATER_LVL K, 1⟩
  let tr : vec3_t := ⟨-1, WATER_LVL K, 1⟩
  let bl : vec3_t := ⟨1, WATER_LVL K, -1⟩
  let br : vec3_t := ⟨-1, WATER_LVL K, -1⟩
  [tl, bl, tr, bl, br, tr]

/-- The function `R_GL_WaterInit`: the value returned and the state after
it. -/
def R_GL_WaterInit (K : TileConsts) (s : State) : Option (Bool × State) :=
  -- ret = R_Texture_Load(g_basepath, DUDV_PATH, &s_ctx.dudv.id);
  let r := R_Texture_Load DUDV_PATH s
  match r.1 with
  | none =>
    -- goto fail_dudv
    some (false, r.2)
  | some dudv_id =>
    let s := { r.2 with s_ctx.dudv.id := dudv_id }
    let s := { s with s_ctx.dudv.tunit := GL_TEXTURE0 }
    -- ret = R_Texture_Load(g_basepath, NORM_PATH, &s_ctx.normal.id);
    let r := R_Texture_Load NORM_PATH s
    match r.1 with
    | none =>
      -- goto fail_normal
      let s := R_Texture_Free DUDV_PATH r.2
      some (false, s)
    | some normal_id => do
      let s := { r.2 with s_ctx.normal.id := normal_id }
      let s := { s with s_ctx.normal.tunit := GL_TEXTURE1 }
      let vbuff := water_vbuff K
      let r := glGenVertexArrays s
      let s := { r.2 with s_ctx.surface.VAO := r.1 }
      let s := glBindVertexArray s.s_ctx.surface.VAO s
      let r := glGenBuffers s
      let s := { r.2 with s_ctx.surface.VBO := r.1 }
      let s := glBindBuffer s.s_ctx.surface.VBO s
      -- glBufferData(GL_ARRAY_BUFFER, ARR_SIZE(vbuff) * sizeof(struct vertex), vbuff, GL_STATIC_DRAW);
      let s := glBufferData vbuff s
      let s := { s with s_ctx.surface.num_verts := vbuff.length }
      -- Attribute 0 - position
      -- glVertexAttribPointer(0, 3, GL_FLOAT, GL_FALSE, sizeof(vec3_t), (void*)0);
      -- glEnableVertexAttribArray(0);
      GL_ASSERT_OK s
      return (true, s)

/-- The function `R_GL_WaterShutdown`. -/
def R_GL_WaterShutdown (s : State) : Option State := do
  assert (0 < s.s_ctx.dudv.id)
  assert (0 < s.s_ctx.normal.id)
  assert (0 < s.s_ctx.surface.VBO)
  assert (0 < s.s_ctx.surface.VAO)
  let s := R_Texture_Free DUDV_PATH s
  let s := R_Texture_Free NORM_PATH s
  let s := glDeleteBuffers s.s_ctx.surface.VAO s
  let s := glDeleteBuffers s.s_ctx.surface.VBO s
  -- memset(&s_ctx, 0, sizeof(s_ctx));
  return { s with s_ctx := ⟨⟨0, 0, 0⟩, ⟨0, 0⟩, ⟨0, 0⟩⟩ }

/-- The model matrix of `R_GL_DrawWater`: from `vec3_t pos = M_GetCenterPos(map);`
to `PFM_Mat4x4_Mult4x4(&trans, &scale, &model);`. -/
def water_model_matrix (K : TileConsts) (m : map) : mat4x4_t :=
  let pos := M_GetCenterPos m
  let trans := PFM_Mat4x4_MakeTrans pos.x pos.y pos.z
  let res := M_GetResolution m
  let half_x : ℚ :=
    f32 (int_to_float (int_mul (int_mul res.chunk_w res.tile_w) K.X_COORDS_PER_TILE) / 2)
  let half_z : ℚ :=
    f32 (int_to_float (int_mul (int_mul res.chunk_h res.tile_h) K.Z_COORDS_PER_TILE) / 2)
  let scale := PFM_Mat4x4_MakeScale half_x 1 half_z
  PFM_Mat4x4_Mult4x4 trans scale

/-- The offscreen part of `R_GL_DrawWater`, from `save_gl_state(&state);` to
`restore_gl_state(&state);`: the two textures and the state after it. -/
def R_GL_DrawWater_offscreen (K : TileConsts) (s : State) : Option (ℕ × ℕ × State) := do
  let state := save_gl_state s
  let r ← make_new_tex WBUFF_RES_X (height_for_width s WBUFF_RES_X) s
  let refract_tex := r.1
  assert (0 < refract_tex)
  let s ← render_refraction_tex K refract_tex r.2
  let r ← make_new_tex WBUFF_RES_X (height_for_width s WBUFF_RES_X) s
  let reflect_tex := r.1
  assert (0 < reflect_tex)
  let s ← render_reflection_tex K reflect_tex r.2
  let s := restore_gl_state state s
  return (refract_tex, reflect_tex, s)

/-- The compositing part of `R_GL_DrawWater`, from
`R_Shader_GetProgForName("mesh.static.colored")` to the end of the function. -/
def R_GL_DrawWater_composite (K : TileConsts) (m : map) (refract_tex reflect_tex : ℕ)
    (s : State) : Option State := do
  let shader_prog := R_Shader_GetProgForName "mesh.static.colored" s
  let s := glUseProgram shader_prog s
  let blue : vec4_t := ⟨0, 0, 1, 1⟩
  let s := glUniform4fv_COLOR blue s
  let s := R_Texture_GL_Activate s.s_ctx.dudv shader_prog s
  let s := R_Texture_GL_Activate s.s_ctx.normal shader_prog s
  let model := water_model_matrix K m
  let s := glUniformMatrix4fv_MODEL model s
  let s := glBindVertexArray s.s_ctx.surface.VAO s
  let s := glDrawArrays s.s_ctx.surface.num_verts s
  -- cleanup:
  let s := glDeleteTextures refract_tex s
  let s := glDeleteTextures reflect_tex s
  GL_ASSERT_OK s
  return s

/-- The function `R_GL_DrawWater`. -/
def R_GL_DrawWater (K : TileConsts) (m : map) (s : State) : Option State := do
  let r ← R_GL_DrawWater_offscreen K s
  R_GL_DrawWater_composite K m r.1 r.2.1 r.2.2

/-! ## The handles of the device -/

/-- The names of the live textures. -/
def live_textures (s : State) : List ℕ := s.textures.map TexObj.name

/-- The names of the live vertex array objects. -/
def live_vaos (s : State) : List ℕ := s.vaos

/-- The names of the live buffers. -/
def live_buffers (s : State) : List ℕ := s.buffers.map BufObj.name

/-! ## The footprint of a map -/

/-- The world-space width of a map: `chunk_w * tile_w * X_COORDS_PER_TILE`. -/
def footprint_X (K : TileConsts) (m : map) : ℚ :=
  ((m.res.chunk_w * m.res.tile_w * K.X_COORDS_PER_TILE : ℤ) : ℚ)

/-- The world-space depth of a map: `chunk_h * tile_h * Z_COORDS_PER_TILE`. -/
def footprint_Z (K : TileConsts) (m : map) : ℚ :=
  ((m.res.chunk_h * m.res.tile_h * K.Z_COORDS_PER_TILE : ℤ) : ℚ)

/-! ## A state to run the functions on -/

/-- A device with a 1366 by 768 viewport on the framebuffer of the window, no
object alive, both water textures on disk, and a camera above the water. -/
def state0 : State where
  viewport := ⟨0, 0, 1366, 768⟩
  fb_binding := 0
  active_texture := 0
  tex_binding := fun _ => 0
  rb_binding := 0
  vao_binding := 0
  array_buffer_binding := 0
  program := 0
  clip_distance0 := false
  gl_error := false
  textures := []
  framebuffers := []
  renderbuffers := []
  vaos := []
  buffers := []
  clip_plane := ⟨0, 0, 0, 0⟩
  assets := [DUDV_PATH, NORM_PATH]
  tex_cache := []
  shaders := [("mesh.static.colored", 3)]
  active_cam_pos := ⟨10, 50, -20⟩
  active_cam_dir := ⟨1, -1, 1⟩
  shared_cam := ⟨⟨10, 50, -20⟩, ⟨1, -1, 1⟩⟩
  s_ctx := ⟨⟨0, 0, 0⟩, ⟨0, 0⟩, ⟨0, 0⟩⟩
  log := []

/-- The device of `state0` when the image of the normal map does not load. -/
def state0_no_normal : State := { state0 with assets := [DUDV_PATH] }

/-- A choice of the constants of `tile.h`: 8, 4 and 8 coordinates per tile,
so that `WATER_LVL` is `-2`. -/
def tile_consts0 : TileConsts := ⟨8, 4, 8⟩

/-- A map of 2 by 2 chunks of 32 by 32 tiles, centred at the origin. -/
def map0 : map := ⟨⟨0, 0, 0⟩, ⟨2, 2, 32, 32⟩⟩

/-- A device as it is in the middle of a frame after `R_GL_WaterInit`: the
viewport is `(10, 20, 1920, 1080)`, the framebuffer object `5` is bound, the
two water textures, the vertex array object and the vertex buffer are live,
and the shared camera transform is not the one of the active camera. -/
def state1 : State :=
  { state0 with
    viewport := ⟨10, 20, 1920, 1080⟩
    fb_binding := 5
    framebuffers := [⟨5, 0, 0⟩]
    textures := [⟨2, 256, 256⟩, ⟨1, 256, 256⟩]
    tex_cache := [(NORM_PATH, 2), (DUDV_PATH, 1)]
    vaos := [1]
    buffers := [⟨1, water_vbuff tile_consts0⟩]
    s_ctx := ⟨⟨1, 1, 6⟩, ⟨1, GL_TEXTURE0⟩, ⟨2, GL_TEXTURE1⟩⟩
    shared_cam := ⟨⟨0, 0, 0⟩, ⟨0, 0, 1⟩⟩ }

/-- The device of `state1` with the viewport `(0, 0, w, h)`. -/
def state_of_viewport (w h : ℤ) : State := { state1 with viewport := ⟨0, 0, w, h⟩ }

/-! # Theorems -/

/-! ## Rounding to binary32 -/

/-- An integer within less than a half of `t` is the rounding of `t`. -/
theorem round_half_even_of_abs_sub_lt (t : ℚ) (n : ℤ) (h : |t - n| < 1 / 2) :
    round_half_even t = n := by
  rw [abs_lt] at h
  have hfl : ⌊t⌋ = n ∨ ⌊t⌋ = n - 1 := by
    have h1 : n - 1 ≤ ⌊t⌋ := by
      rw [Int.le_floor]; push_cast; linarith [h.1]
    have h2 : ⌊t⌋ < n + 1 := by
      rw [Int.floor_lt]; push_cast; linarith [h.2]
    omega
  unfold round_half_even
  rcases hfl with e | e
  · have : t - (⌊t⌋ : ℚ) < 1 / 2 := by rw [e]; linarith [h.2]
    rw [if_pos this, e]
  · have h1 : ¬ (t - (⌊t⌋ : ℚ) < 1 / 2) := by
      rw [e]; push_cast; linarith [h.1]
    have h2 : 1 / 2 < t - (⌊t⌋ : ℚ) := by
      rw [e]; push_cast; linarith [h.1]
    rw [if_neg h1, if_pos h2, e]; ring

/-- The rounding of an integer is that integer. -/
theorem round_half_even_intCast (n : ℤ) : round_half_even (n : ℚ) = n :=
  round_half_even_of_abs_sub_lt _ n (by simp)

/-- The rounding of `t` is within a half of `t`. -/
theorem abs_round_half_even_sub_le (t : ℚ) : |(round_half_even t : ℚ) - t| ≤ 1 / 2 := by
  have h1 := Int.floor_le t
  have h2 := Int.lt_floor_add_one t
  unfold round_half_even
  rw [abs_le]
  split_ifs <;> push_cast <;> constructor <;> linarith

/-- The spacing is positive. -/
theorem f32_ulp_pos (x : ℚ) : 0 < f32_ulp x := by
  unfold f32_ulp; positivity

/-- Zero is a binary32 number. -/
theorem f32_zero : f32 0 = 0 := by
  unfold f32
  rw [zero_div]
  rw [show ((0 : ℚ)) = ((0 : ℤ) : ℚ) by simp, round_half_even_intCast]
  simp

/-- The exponent of a non-zero `x` brackets `|x|` between two powers of two. -/
theorem f32_log_bounds (x : ℚ) (hx : x ≠ 0) :
    (2 : ℚ) ^ Int.log 2 |x| ≤ |x| ∧ |x| < (2 : ℚ) ^ (Int.log 2 |x| + 1) := by
  have hpos : 0 < |x| := abs_pos.2 hx
  have h1 := Int.zpow_log_le_self (b := 2) (by norm_num) hpos
  have h2 := Int.lt_zpow_succ_log_self (b := 2) (by norm_num) |x|
  exact ⟨by exact_mod_cast h1, by exact_mod_cast h2⟩

/-- The exponent of a value between `2^e` and `2^(e+1)` is `e`. -/
theorem f32_log_eq (x : ℚ) (e : ℤ) (hlo : (2 : ℚ) ^ e ≤ |x|) (hhi : |x| < (2 : ℚ) ^ (e + 1)) :
    Int.log 2 |x| = e := by
  have hpos : 0 < |x| := lt_of_lt_of_le (by positivity) hlo
  have h1 : e ≤ Int.log 2 |x| :=
    (Int.zpow_le_iff_le_log (b := 2) (by norm_num) hpos).1 (by exact_mod_cast hlo)
  have h2 : Int.log 2 |x| < e + 1 :=
    (Int.lt_zpow_iff_log_lt (b := 2) (by norm_num) hpos).1 (by exact_mod_cast hhi)
  omega

/-- The value of `f32` at `x`, from the exponent of `x` and the integer nearest
to `x` in units of the spacing. -/
theorem f32_eq_of (x : ℚ) (e n : ℤ) (he : -126 ≤ e) (hlo : (2 : ℚ) ^ e ≤ |x|)
    (hhi : |x| < (2 : ℚ) ^ (e + 1)) (hn : |x / (2 : ℚ) ^ (e - 23) - n| < 1 / 2) :
    f32 x = n * (2 : ℚ) ^ (e - 23) := by
  unfold f32 f32_ulp
  rw [f32_log_eq x e hlo hhi, max_eq_left he, round_half_even_of_abs_sub_lt _ n hn]

/-- An integer of magnitude below `2^24` times a power of two not below
`2^-149` is a binary32 number. -/
theorem f32_exact (m k : ℤ) (hm : |m| < 2 ^ 24) (hk : -149 ≤ k) :
    f32 ((m : ℚ) * (2 : ℚ) ^ k) = (m : ℚ) * (2 : ℚ) ^ k := by
  by_cases h0 : m = 0
  · subst h0; simp [f32_zero]
  have hx : (m : ℚ) * (2 : ℚ) ^ k ≠ 0 := by
    apply mul_ne_zero
    · exact_mod_cast h0
    · positivity
  have habs : |(m : ℚ) * (2 : ℚ) ^ k| = (|m| : ℤ) * (2 : ℚ) ^ k := by
    rw [abs_mul, abs_of_pos (show (0 : ℚ) < 2 ^ k by positivity)]
    push_cast; rfl
  have hlt : |(m : ℚ) * (2 : ℚ) ^ k| < (2 : ℚ) ^ (k + 24) := by
    rw [habs, zpow_add₀ (by norm_num : (2 : ℚ) ≠ 0), mul_comm ((2 : ℚ) ^ k)]
    apply mul_lt_mul_of_pos_right _ (by positivity)
    have h24 : (2 : ℚ) ^ (24 : ℤ) = ((2 ^ 24 : ℤ) : ℚ) := by norm_num
    rw [h24]
    exact_mod_cast hm
  have hlog : Int.log 2 |(m : ℚ) * (2 : ℚ) ^ k| < k + 24 :=
    (Int.lt_zpow_iff_log_lt (b := 2) (by norm_num) (abs_pos.2 hx)).1 (by exact_mod_cast hlt)
  have hj : 0 ≤ k - (max (Int.log 2 |(m : ℚ) * (2 : ℚ) ^ k|) (-126) - 23) := by
    have : max (Int.log 2 |(m : ℚ) * (2 : ℚ) ^ k|) (-126) ≤ k + 23 := max_le (by omega) (by omega)
    omega
  obtain ⟨j, hjeq⟩ := Int.eq_ofNat_of_zero_le hj
  have hdiv : (m : ℚ) * (2 : ℚ) ^ k / f32_ulp ((m : ℚ) * (2 : ℚ) ^ k) = ((m * 2 ^ j : ℤ) : ℚ) := by
    unfold f32_ulp
    rw [mul_div_assoc, ← zpow_sub₀ (by norm_num : (2 : ℚ) ≠ 0), hjeq]
    push_cast
    rw [zpow_natCast]
  have hulp : f32_ulp ((m : ℚ) * (2 : ℚ) ^ k) * (2 : ℚ) ^ (j : ℤ) = (2 : ℚ) ^ k := by
    unfold f32_ulp
    rw [← zpow_add₀ (by norm_num : (2 : ℚ) ≠ 0), ← hjeq]
    congr 1; ring
  unfold f32
  rw [hdiv, round_half_even_intCast]
  push_cast
  rw [← zpow_natCast, mul_assoc, mul_comm ((2 : ℚ) ^ (j : ℤ)), hulp]

/-- An integer of magnitude below `2^24` is a binary32 number. -/
theorem f32_int (n : ℤ) (hn : |n| < 2 ^ 24) : f32 (n : ℚ) = n := by
  have := f32_exact n 0 hn (by norm_num)
  simpa using this

/-- Half an integer of magnitude below `2^24` is a binary32 number. -/
theorem f32_int_half (n : ℤ) (hn : |n| < 2 ^ 24) : f32 ((n : ℚ) / 2) = (n : ℚ) / 2 := by
  have := f32_exact n (-1) hn (by norm_num)
  rw [show (n : ℚ) / 2 = (n : ℚ) * (2 : ℚ) ^ (-1 : ℤ) by rw [zpow_neg_one]; ring]
  exact this

/-- The relative error of a rounding in the normal range is at most `2^-24`. -/
theorem f32_error (x : ℚ) (hx : (2 : ℚ) ^ (-126 : ℤ) ≤ |x|) :
    |f32 x - x| ≤ |x| * (2 : ℚ) ^ (-24 : ℤ) := by
  have hx0 : x ≠ 0 := by
    intro h; rw [h, abs_zero] at hx
    have : (0 : ℚ) < 2 ^ (-126 : ℤ) := by positivity
    linarith
  obtain ⟨hlo, -⟩ := f32_log_bounds x hx0
  have hlog : -126 ≤ Int.log 2 |x| :=
    (Int.zpow_le_iff_le_log (b := 2) (by norm_num) (abs_pos.2 hx0)).1 (by exact_mod_cast hx)
  have hu : f32_ulp x = (2 : ℚ) ^ (Int.log 2 |x|) * (2 : ℚ) ^ (-23 : ℤ) := by
    unfold f32_ulp
    rw [max_eq_left hlog, sub_eq_add_neg, zpow_add₀ (by norm_num : (2 : ℚ) ≠ 0)]
  have hup := f32_ulp_pos x
  have hr := abs_round_half_even_sub_le (x / f32_ulp x)
  have e : f32 x - x = ((round_half_even (x / f32_ulp x) : ℚ) - x / f32_ulp x) * f32_ulp x := by
    unfold f32; field_simp
  rw [e, abs_mul, abs_of_pos hup]
  calc |(round_half_even (x / f32_ulp x) : ℚ) - x / f32_ulp x| * f32_ulp x
      ≤ 1 / 2 * f32_ulp x := mul_le_mul_of_nonneg_right hr hup.le
    _ = (2 : ℚ) ^ (Int.log 2 |x|) * (2 : ℚ) ^ (-24 : ℤ) := by
        rw [hu]; norm_num; ring
    _ ≤ |x| * (2 : ℚ) ^ (-24 : ℤ) := mul_le_mul_of_nonneg_right hlo (by positivity)

/-- For a positive value in the normal range the rounded value lies within the
relative error `2^-24`. -/
theorem f32_bounds_of_pos (x : ℚ) (hx0 : 0 < x) (hx : (2 : ℚ) ^ (-126 : ℤ) ≤ x) :
    x * (1 - 1 / 16777216) ≤ f32 x ∧ f32 x ≤ x * (1 + 1 / 16777216) := by
  have h := f32_error x (by rwa [abs_of_pos hx0])
  rw [abs_of_pos hx0, abs_le] at h
  have hu : (2 : ℚ) ^ (-24 : ℤ) = 1 / 16777216 := by norm_num
  rw [hu] at h
  constructor <;> linarith [h.1, h.2]

/-- The computed quotient `W / (w / h)`, times `w`, is within less than one of
`W * h`, for positive integers with `w < 2^24` and `W * h ≤ 2^22`. -/
theorem height_quotient_bounds (w h W : ℤ) (hw : 0 < w) (hh : 0 < h) (hW : 0 < W)
    (hwb : w < 2 ^ 24) (hb : W * h ≤ 2 ^ 22) :
    ((W * h : ℤ) : ℚ) - 1 < f32 ((W : ℚ) / f32 ((w : ℚ) / (h : ℚ))) * (w : ℚ) ∧
    f32 ((W : ℚ) / f32 ((w : ℚ) / (h : ℚ))) * (w : ℚ) < ((W * h : ℤ) : ℚ) + 1 := by
  have hwq : (0 : ℚ) < w := by exact_mod_cast hw
  have hhq : (0 : ℚ) < h := by exact_mod_cast hh
  have hWq : (0 : ℚ) < W := by exact_mod_cast hW
  have hw1 : (1 : ℚ) ≤ w := by exact_mod_cast hw
  have hh1 : (1 : ℚ) ≤ h := by exact_mod_cast hh
  have hW1 : (1 : ℚ) ≤ W := by exact_mod_cast hW
  have hwb' : (w : ℚ) < 16777216 := by exact_mod_cast hwb
  have hP : (W : ℚ) * h ≤ 4194304 := by exact_mod_cast hb
  have hhb : (h : ℚ) ≤ 4194304 := by nlinarith
  have hWb : (W : ℚ) ≤ 4194304 := by nlinarith
  have hsmall : (2 : ℚ) ^ (-126 : ℤ) ≤ 1 / 67108864 := by
    rw [show (1 : ℚ) / 67108864 = (2 : ℚ) ^ (-26 : ℤ) by norm_num]
    exact zpow_le_zpow_right₀ (by norm_num) (by norm_num)
  -- the aspect ratio
  have hx1 : (0 : ℚ) < (w : ℚ) / h := div_pos hwq hhq
  have hx1lo : (1 : ℚ) / 67108864 ≤ (w : ℚ) / h := by
    rw [div_le_div_iff₀ (by norm_num) hhq]; nlinarith
  obtain ⟨ha1, ha2⟩ := f32_bounds_of_pos _ hx1 (le_trans hsmall hx1lo)
  set a := f32 ((w : ℚ) / (h : ℚ)) with ha
  have hah1 : (w : ℚ) * (1 - 1 / 16777216) ≤ a * h := by
    have := mul_le_mul_of_nonneg_right ha1 hhq.le
    rwa [mul_assoc, mul_comm (1 - 1 / 16777216 : ℚ) (h : ℚ), ← mul_assoc,
      div_mul_cancel₀ _ hhq.ne'] at this
  have hah2 : a * h ≤ (w : ℚ) * (1 + 1 / 16777216) := by
    have := mul_le_mul_of_nonneg_right ha2 hhq.le
    rwa [mul_assoc, mul_comm (1 + 1 / 16777216 : ℚ) (h : ℚ), ← mul_assoc,
      div_mul_cancel₀ _ hhq.ne'] at this
  have hapos : 0 < a := by
    have : 0 < a * h := lt_of_lt_of_le (by nlinarith) hah1
    exact (mul_pos_iff_of_pos_right hhq).1 this
  -- the quotient
  have hx2 : (0 : ℚ) < (W : ℚ) / a := div_pos hWq hapos
  have haub : a ≤ 33554432 := by nlinarith
  have hx2lo : (1 : ℚ) / 67108864 ≤ (W : ℚ) / a := by
    rw [div_le_div_iff₀ (by norm_num) hapos]; nlinarith
  obtain ⟨hr1, hr2⟩ := f32_bounds_of_pos _ hx2 (le_trans hsmall hx2lo)
  set r := f32 ((W : ℚ) / a) with hr
  have hra1 : (W : ℚ) * (1 - 1 / 16777216) ≤ r * a := by
    have := mul_le_mul_of_nonneg_right hr1 hapos.le
    rwa [mul_assoc, mul_comm (1 - 1 / 16777216 : ℚ) a, ← mul_assoc,
      div_mul_cancel₀ _ hapos.ne'] at this
  have hra2 : r * a ≤ (W : ℚ) * (1 + 1 / 16777216) := by
    have := mul_le_mul_of_nonneg_right hr2 hapos.le
    rwa [mul_assoc, mul_comm (1 + 1 / 16777216 : ℚ) a, ← mul_assoc,
      div_mul_cancel₀ _ hapos.ne'] at this
  have hrpos : 0 < r := by
    by_contra hc
    push_neg at hc
    nlinarith
  have hlow : ((W : ℚ) * h) * (1 - 1 / 16777216) ≤ (r * w) * (1 + 1 / 16777216) := by
    have h1 : r * (a * h) ≤ r * ((w : ℚ) * (1 + 1 / 16777216)) :=
      mul_le_mul_of_nonneg_left hah2 hrpos.le
    have h2 : (W : ℚ) * (1 - 1 / 16777216) * h ≤ r * a * h :=
      mul_le_mul_of_nonneg_right hra1 hhq.le
    calc ((W : ℚ) * h) * (1 - 1 / 16777216) = (W : ℚ) * (1 - 1 / 16777216) * h := by ring
      _ ≤ r * a * h := h2
      _ = r * (a * h) := by ring
      _ ≤ r * ((w : ℚ) * (1 + 1 / 16777216)) := h1
      _ = (r * w) * (1 + 1 / 16777216) := by ring
  have hupp : (r * w) * (1 - 1 / 16777216) ≤ ((W : ℚ) * h) * (1 + 1 / 16777216) := by
    have h1 : r * ((w : ℚ) * (1 - 1 / 16777216)) ≤ r * (a * h) :=
      mul_le_mul_of_nonneg_left hah1 hrpos.le
    have h2 : r * a * h ≤ (W : ℚ) * (1 + 1 / 16777216) * h :=
      mul_le_mul_of_nonneg_right hra2 hhq.le
    calc (r * w) * (1 - 1 / 16777216) = r * ((w : ℚ) * (1 - 1 / 16777216)) := by ring
      _ ≤ r * (a * h) := h1
      _ = r * a * h := by ring
      _ ≤ (W : ℚ) * (1 + 1 / 16777216) * h := h2
      _ = ((W : ℚ) * h) * (1 + 1 / 16777216) := by ring
  push_cast
  constructor <;> linarith


/-- The conversion to `float` of an integer of magnitude below `2^24` is exact. -/
theorem int_to_float_eq (n : ℤ) (hn : |n| < 2 ^ 24) : int_to_float n = n :=
  f32_int n hn

/-- A product that is an `int` is the product of the integers. -/
theorem int_mul_eq (a b : ℤ) (h : |a * b| < 2 ^ 31) : int_mul a b = a * b := by
  unfold int_mul
  rw [abs_lt] at h
  generalize a * b = p at h ⊢
  omega

/-- The water level is `2 - Y_COORDS_PER_TILE` when `Y_COORDS_PER_TILE` has a
magnitude of at most `2^20`. -/
theorem WATER_LVL_eq (K : TileConsts) (hK : |K.Y_COORDS_PER_TILE| ≤ 2 ^ 20) :
    WATER_LVL K = ((2 - K.Y_COORDS_PER_TILE : ℤ) : ℚ) := by
  have h1 : |K.Y_COORDS_PER_TILE| < 2 ^ 24 := lt_of_le_of_lt hK (by norm_num)
  have h2 : |(-K.Y_COORDS_PER_TILE)| < 2 ^ 24 := by rwa [abs_neg]
  have h3 : |2 - K.Y_COORDS_PER_TILE| < 2 ^ 24 := by
    rw [abs_lt] at h1 ⊢
    have := abs_le.1 hK
    constructor <;> linarith [this.1, this.2]
  unfold WATER_LVL
  rw [int_to_float_eq _ h1]
  have e1 : (-1 : ℚ) * (K.Y_COORDS_PER_TILE : ℚ) = ((-K.Y_COORDS_PER_TILE : ℤ) : ℚ) := by
    push_cast; ring
  rw [e1, f32_int _ h2]
  have e2 : ((-K.Y_COORDS_PER_TILE : ℤ) : ℚ) + 2 = ((2 - K.Y_COORDS_PER_TILE : ℤ) : ℚ) := by
    push_cast; ring
  rw [e2, f32_int _ h3]

/-- The water level for `Y_COORDS_PER_TILE = 4` is `-2`. -/
theorem WATER_LVL_tile_consts0 : WATER_LVL tile_consts0 = -2 := by
  rw [WATER_LVL_eq tile_consts0 (by decide)]
  simp [tile_consts0]

/-! ## Clip planes -/

/-- The plane of the refraction pass accepts exactly the points at or below
`WATER_LVL`. -/
theorem refraction_plane_accepts_iff (K : TileConsts) (p : vec3_t) :
    clip_accepts (refraction_plane_eq K) p ↔ p.y ≤ WATER_LVL K := by
  simp only [clip_accepts, clip_distance, refraction_plane_eq]
  constructor <;> intro h <;> linarith

/-- The plane of the reflection pass accepts exactly the points at or above
`-WATER_LVL`: the fourth component of the plane has the sign of the refraction
plane. -/
theorem reflection_plane_accepts_iff (K : TileConsts) (p : vec3_t) :
    clip_accepts (reflection_plane_eq K) p ↔ -WATER_LVL K ≤ p.y := by
  simp only [clip_accepts, clip_distance, reflection_plane_eq]
  constructor <;> intro h <;> linarith

/-- C1, at `Y_COORDS_PER_TILE = 4`: the water level is `-2`, the point
`(0, 0, 0)` lies above it, the refraction plane rejects it as it should, and the
plane set by `render_reflection_tex` rejects it too, although the reflection
pass is to keep every point with `y ≥ WATER_LVL`. -/
theorem reflection_plane_rejects_point_above_water :
    WATER_LVL tile_consts0 = -2 ∧
    WATER_LVL tile_consts0 ≤ (⟨0, 0, 0⟩ : vec3_t).y ∧
    ¬ clip_accepts (refraction_plane_eq tile_consts0) ⟨0, 0, 0⟩ ∧
    ¬ clip_accepts (reflection_plane_eq tile_consts0) ⟨0, 0, 0⟩ := by
  have h : WATER_LVL tile_consts0 = -2 := WATER_LVL_tile_consts0
  refine ⟨h, ?_, ?_, ?_⟩
  · rw [h]; norm_num
  · rw [refraction_plane_accepts_iff, h]; norm_num
  · rw [reflection_plane_accepts_iff, h]; norm_num

/-! ## The model matrix -/

/-- Half the extent of the map along one axis, as `R_GL_DrawWater` computes it,
is half the product of the three integers when no product overflows and the
footprint has a magnitude below `2^24`. -/
theorem half_extent_eq (a b c : ℤ) (h1 : |a * b| < 2 ^ 31) (h2 : |a * b * c| < 2 ^ 24) :
    f32 (int_to_float (int_mul (int_mul a b) c) / 2) = ((a * b * c : ℤ) : ℚ) / 2 := by
  have h3 : |a * b * c| < 2 ^ 31 := lt_trans h2 (by norm_num)
  rw [int_mul_eq a b h1, int_mul_eq (a * b) c h3, int_to_float_eq _ h2, f32_int_half _ h2]

/-- The model matrix of `R_GL_DrawWater` scales `x` and `z` by the half extents
it computed and translates by the centre of the map. -/
theorem transform_point_water_model_matrix (K : TileConsts) (m : map) (p : vec3_t) :
    transform_point (water_model_matrix K m) p =
      ⟨m.center_pos.x +
        f32 (int_to_float (int_mul (int_mul m.res.chunk_w m.res.tile_w) K.X_COORDS_PER_TILE) / 2)
          * p.x,
       m.center_pos.y + p.y,
       m.center_pos.z +
        f32 (int_to_float (int_mul (int_mul m.res.chunk_h m.res.tile_h) K.Z_COORDS_PER_TILE) / 2)
          * p.z⟩ := by
  simp [transform_point, water_model_matrix, PFM_Mat4x4_Mult4x4, PFM_Mat4x4_MakeTrans,
    PFM_Mat4x4_MakeScale, M_GetCenterPos, M_GetResolution, Matrix.mul_apply, Fin.sum_univ_four,
    Matrix.vecHead, Matrix.vecTail]
  refine ⟨?_, ?_, ?_⟩ <;> ring

/-- The image of a point under the model matrix, for a map whose footprint is
computed without overflow and has a magnitude below `2^24`. -/
theorem transform_point_of_bounded_footprint (K : TileConsts) (m : map) (p : vec3_t)
    (hx1 : |m.res.chunk_w * m.res.tile_w| < 2 ^ 31)
    (hx2 : |m.res.chunk_w * m.res.tile_w * K.X_COORDS_PER_TILE| < 2 ^ 24)
    (hz1 : |m.res.chunk_h * m.res.tile_h| < 2 ^ 31)
    (hz2 : |m.res.chunk_h * m.res.tile_h * K.Z_COORDS_PER_TILE| < 2 ^ 24) :
    transform_point (water_model_matrix K m) p =
      ⟨m.center_pos.x + footprint_X K m / 2 * p.x,
       m.center_pos.y + p.y,
       m.center_pos.z + footprint_Z K m / 2 * p.z⟩ := by
  rw [transform_point_water_model_matrix, half_extent_eq _ _ _ hx1 hx2,
    half_extent_eq _ _ _ hz1 hz2]
  rfl

/-- The footprint of `map0` is computed without overflow and is small. -/
theorem map0_bounds :
    |map0.res.chunk_w * map0.res.tile_w| < 2 ^ 31 ∧
    |map0.res.chunk_w * map0.res.tile_w * tile_consts0.X_COORDS_PER_TILE| < 2 ^ 24 ∧
    |map0.res.chunk_h * map0.res.tile_h| < 2 ^ 31 ∧
    |map0.res.chunk_h * map0.res.tile_h * tile_consts0.Z_COORDS_PER_TILE| < 2 ^ 24 := by
  decide

/-- C2 as stated fails: for the map `map0` (centre `(0, 0, 0)`, footprint 512 by
512) and the water level `-2`, the model matrix sends the local corner
`(1, 0, 1)` to `(256, 0, 256)`, at height `0`, not at the water level. -/
theorem water_model_matrix_corner_not_at_water_level :
    transform_point (water_model_matrix tile_consts0 map0) ⟨1, 0, 1⟩ = ⟨256, 0, 256⟩ ∧
    WATER_LVL tile_consts0 = -2 ∧
    transform_point (water_model_matrix tile_consts0 map0) ⟨1, 0, 1⟩ ≠
      ⟨map0.center_pos.x + footprint_X tile_consts0 map0 / 2, WATER_LVL tile_consts0,
       map0.center_pos.z + footprint_Z tile_consts0 map0 / 2⟩ := by
  have h : WATER_LVL tile_consts0 = -2 := WATER_LVL_tile_consts0
  have e : transform_point (water_model_matrix tile_consts0 map0) ⟨1, 0, 1⟩ = ⟨256, 0, 256⟩ := by
    rw [transform_point_of_bounded_footprint _ _ _ map0_bounds.1 map0_bounds.2.1
      map0_bounds.2.2.1 map0_bounds.2.2.2]
    simp only [footprint_X, footprint_Z, map0, tile_consts0]
    norm_num
  refine ⟨e, h, ?_⟩
  rw [e, h]
  intro hc
  have hy := congrArg vec3_t.y hc
  norm_num at hy

/-- C2, amended: for every map with centre `(cx, cy, cz)` whose footprint `X` by
`Z` is computed without overflow of an `int` product and has `|X| < 2^24` and
`|Z| < 2^24`, the model matrix of `R_GL_DrawWater` maps the local corners
`(±1, 0, ±1)` to `(cx ± X/2, cy, cz ± Z/2)`, and the corners
`(±1, WATER_LVL, ±1)` of the mesh built by `R_GL_WaterInit` to
`(cx ± X/2, cy + WATER_LVL, cz ± Z/2)`; every vertex of that mesh lands at
height `cy + WATER_LVL`. -/
theorem water_model_matrix_corners (K : TileConsts) (m : map)
    (hx1 : |m.res.chunk_w * m.res.tile_w| < 2 ^ 31)
    (hx2 : |m.res.chunk_w * m.res.tile_w * K.X_COORDS_PER_TILE| < 2 ^ 24)
    (hz1 : |m.res.chunk_h * m.res.tile_h| < 2 ^ 31)
    (hz2 : |m.res.chunk_h * m.res.tile_h * K.Z_COORDS_PER_TILE| < 2 ^ 24) :
    (transform_point (water_model_matrix K m) ⟨1, 0, 1⟩ =
        ⟨m.center_pos.x + footprint_X K m / 2, m.center_pos.y,
         m.center_pos.z + footprint_Z K m / 2⟩ ∧
     transform_point (water_model_matrix K m) ⟨-1, 0, 1⟩ =
        ⟨m.center_pos.x - footprint_X K m / 2, m.center_pos.y,
         m.center_pos.z + footprint_Z K m / 2⟩ ∧
     transform_point (water_model_matrix K m) ⟨1, 0, -1⟩ =
        ⟨m.center_pos.x + footprint_X K m / 2, m.center_pos.y,
         m.center_pos.z - footprint_Z K m / 2⟩ ∧
     transform_point (water_model_matrix K m) ⟨-1, 0, -1⟩ =
        ⟨m.center_pos.x - footprint_X K m / 2, m.center_pos.y,
         m.center_pos.z - footprint_Z K m / 2⟩) ∧
    (transform_point (water_model_matrix K m) ⟨1, WATER_LVL K, 1⟩ =
        ⟨m.center_pos.x + footprint_X K m / 2, m.center_pos.y + WATER_LVL K,
         m.center_pos.z + footprint_Z K m / 2⟩ ∧
     transform_point (water_model_matrix K m) ⟨-1, WATER_LVL K, 1⟩ =
        ⟨m.center_pos.x - footprint_X K m / 2, m.center_pos.y + WATER_LVL K,
         m.center_pos.z + footprint_Z K m / 2⟩ ∧
     transform_point (water_model_matrix K m) ⟨1, WATER_LVL K, -1⟩ =
        ⟨m.center_pos.x + footprint_X K m / 2, m.center_pos.y + WATER_LVL K,
         m.center_pos.z - footprint_Z K m / 2⟩ ∧
     transform_point (water_model_matrix K m) ⟨-1, WATER_LVL K, -1⟩ =
        ⟨m.center_pos.x - footprint_X K m / 2, m.center_pos.y + WATER_LVL K,
         m.center_pos.z - footprint_Z K m / 2⟩) ∧
    (∀ v ∈ water_vbuff K,
      (transform_point (water_model_matrix K m) v).y = m.center_pos.y + WATER_LVL K) := by
  refine ⟨⟨?_, ?_, ?_, ?_⟩, ⟨?_, ?_, ?_, ?_⟩, ?_⟩
  iterate 8 (rw [transform_point_of_bounded_footprint K m _ hx1 hx2 hz1 hz2]; congr 1 <;> ring)
  intro v hv
  rw [transform_point_of_bounded_footprint K m _ hx1 hx2 hz1 hz2]
  simp only [water_vbuff, List.mem_cons, List.mem_singleton, List.not_mem_nil, or_false] at hv
  rcases hv with rfl | rfl | rfl | rfl | rfl | rfl <;> rfl

/-- C2, amended, on `map0`, whose footprint is 512 by 512: the corner
`(1, WATER_LVL, 1)` of the mesh goes to `(256, -2, 256)`. -/
theorem water_model_matrix_corners_witness :
    (|map0.res.chunk_w * map0.res.tile_w| < 2 ^ 31 ∧
     |map0.res.chunk_w * map0.res.tile_w * tile_consts0.X_COORDS_PER_TILE| < 2 ^ 24 ∧
     |map0.res.chunk_h * map0.res.tile_h| < 2 ^ 31 ∧
     |map0.res.chunk_h * map0.res.tile_h * tile_consts0.Z_COORDS_PER_TILE| < 2 ^ 24) ∧
    transform_point (water_model_matrix tile_consts0 map0) ⟨1, WATER_LVL tile_consts0, 1⟩ =
      ⟨map0.center_pos.x + footprint_X tile_consts0 map0 / 2,
       map0.center_pos.y + WATER_LVL tile_consts0,
       map0.center_pos.z + footprint_Z tile_consts0 map0 / 2⟩ :=
  ⟨map0_bounds,
    (water_model_matrix_corners tile_consts0 map0 map0_bounds.1 map0_bounds.2.1
      map0_bounds.2.2.1 map0_bounds.2.2.2).2.1.1⟩

/-! ## The camera mirror -/

/-- The conversion to `int` of a non-negative `float` whose integer part is an
`int` is its integer part. -/
theorem float_to_int_of_nonneg (r : ℚ) (h0 : 0 ≤ r) (hmax : ⌊r⌋ ≤ INT_MAX) :
    float_to_int r = ⌊r⌋ := by
  have hfl : 0 ≤ ⌊r⌋ := Int.floor_nonneg.2 h0
  have hmin : INT_MIN ≤ ⌊r⌋ := le_trans (by decide) hfl
  simp only [float_to_int, if_pos h0, hmin, hmax, and_self, if_true]

/-- The value of `height_for_width` for a viewport of non-zero width and height,
when the three integers convert exactly. -/
theorem height_for_width_of_exact (s : State) (W : ℤ) (hw : s.viewport.width ≠ 0)
    (hh : s.viewport.height ≠ 0) (hwb : |s.viewport.width| < 2 ^ 24)
    (hhb : |s.viewport.height| < 2 ^ 24) (hWb : |W| < 2 ^ 24) :
    height_for_width s W =
      float_to_int (f32 ((W : ℚ) / f32 ((s.viewport.width : ℚ) / (s.viewport.height : ℚ)))) := by
  simp only [height_for_width, if_neg hw, if_neg hh, int_to_float_eq _ hwb, int_to_float_eq _ hhb,
    int_to_float_eq _ hWb]

/-- The value of `height_for_width` for a viewport of positive width `w < 2^24`
and positive height `h` and a positive width `W` with `W * h ≤ 2^22`: the
integer quotient of `W * h` by `w` when `w` does not divide `W * h`, and that
quotient or one less when it does. -/
theorem height_for_width_cases (s : State) (W : ℤ) (hw : 0 < s.viewport.width)
    (hh : 0 < s.viewport.height) (hW : 0 < W) (hwb : s.viewport.width < 2 ^ 24)
    (hb : W * s.viewport.height ≤ 2 ^ 22) :
    (¬ s.viewport.width ∣ W * s.viewport.height →
      height_for_width s W = W * s.viewport.height / s.viewport.width) ∧
    (s.viewport.width ∣ W * s.viewport.height →
      height_for_width s W = W * s.viewport.height / s.viewport.width ∨
      height_for_width s W = W * s.viewport.height / s.viewport.width - 1) := by
  obtain ⟨hlo, hhi⟩ := height_quotient_bounds _ _ W hw hh hW hwb hb
  have hhb : s.viewport.height ≤ 2 ^ 22 := by nlinarith
  have hWb : W ≤ 2 ^ 22 := by nlinarith
  have e := height_for_width_of_exact s W hw.ne' hh.ne'
    (by rw [abs_of_pos hw]; exact hwb)
    (by rw [abs_of_pos hh]; exact lt_of_le_of_lt hhb (by norm_num))
    (by rw [abs_of_pos hW]; exact lt_of_le_of_lt hWb (by norm_num))
  set r := f32 ((W : ℚ) / f32 ((s.viewport.width : ℚ) / (s.viewport.height : ℚ))) with hr
  set w := s.viewport.width with hwdef
  set P := W * s.viewport.height with hPdef
  have hwq : (0 : ℚ) < w := by exact_mod_cast hw
  have hP1 : 1 ≤ P := by
    have : 0 < P := mul_pos hW hh
    omega
  have hdm := Int.ediv_add_emod P w
  have hm0 := Int.emod_nonneg P hw.ne'
  have hmw := Int.emod_lt_of_pos P hw
  have hn0 : 0 ≤ P / w := Int.ediv_nonneg (by omega) hw.le
  have hnP : P / w ≤ P := Int.ediv_le_self _ (by omega)
  have hrpos : 0 < r := by
    have : (0 : ℚ) < r * w := by
      have : (1 : ℚ) ≤ (P : ℚ) := by exact_mod_cast hP1
      linarith
    exact (mul_pos_iff_of_pos_right hwq).1 this
  -- r lies strictly between P / w - 1 and P / w + 1
  have hup : r < ((P / w + 1 : ℤ) : ℚ) := by
    have h1 : (P : ℚ) + 1 ≤ ((P / w + 1 : ℤ) : ℚ) * w := by
      have : P + 1 ≤ (P / w + 1) * w := by nlinarith
      exact_mod_cast this
    exact lt_of_mul_lt_mul_right (lt_of_lt_of_le hhi h1) hwq.le
  have hdown : ((P / w - 1 : ℤ) : ℚ) < r := by
    have h1 : ((P / w - 1 : ℤ) : ℚ) * w ≤ (P : ℚ) - 1 := by
      have : (P / w - 1) * w ≤ P - 1 := by nlinarith
      exact_mod_cast this
    exact lt_of_mul_lt_mul_right (lt_of_le_of_lt h1 hlo) hwq.le
  have hflle : ⌊r⌋ ≤ P / w := by
    have : ⌊r⌋ < P / w + 1 := Int.floor_lt.2 hup
    omega
  have hflge : P / w - 1 ≤ ⌊r⌋ := Int.le_floor.2 hdown.le
  have hmax : ⌊r⌋ ≤ INT_MAX := by
    have : P / w ≤ 2 ^ 22 := le_trans hnP hb
    have h2 : (2 : ℤ) ^ 22 ≤ INT_MAX := by decide
    omega
  rw [e, float_to_int_of_nonneg r hrpos.le hmax]
  constructor
  · intro hnd
    have hm1 : 1 ≤ P % w := by
      have : P % w ≠ 0 := fun h0 => hnd (Int.dvd_of_emod_eq_zero h0)
      omega
    have h1 : ((P / w : ℤ) : ℚ) * w ≤ (P : ℚ) - 1 := by
      have : (P / w) * w ≤ P - 1 := by nlinarith
      exact_mod_cast this
    have : ((P / w : ℤ) : ℚ) < r := lt_of_mul_lt_mul_right (lt_of_le_of_lt h1 hlo) hwq.le
    have : P / w ≤ ⌊r⌋ := Int.le_floor.2 this.le
    omega
  · intro _
    omega

/-! ## Names and lists of objects -/

/-- Every element of a list of names is at most the largest name. -/
theorem le_foldr_max (l : List ℕ) (n : ℕ) (h : n ∈ l) : n ≤ l.foldr max 0 := by
  induction l with
  | nil => cases h
  | cons a t ih =>
    rcases List.mem_cons.1 h with rfl | h
    · exact le_max_left _ _
    · exact le_trans (ih h) (le_max_right _ _)

/-- A fresh name is not in use. -/
theorem fresh_name_not_mem (l : List ℕ) : fresh_name l ∉ l := by
  intro h
  have := le_foldr_max l _ h
  simp only [fresh_name] at this
  omega

/-- A fresh name is not the name `0`. -/
theorem fresh_name_ne_zero (l : List ℕ) : fresh_name l ≠ 0 := by
  simp [fresh_name]

/-- A fresh name is positive. -/
theorem fresh_name_pos (l : List ℕ) : 0 < fresh_name l := by
  simp [fresh_name]

/-- No object of a list has the name that is fresh for the list. -/
theorem name_ne_fresh {α : Type} (f : α → ℕ) (l : List α) (x : α) (h : x ∈ l) :
    f x ≠ fresh_name (l.map f) := by
  intro e
  exact fresh_name_not_mem (l.map f) (e ▸ List.mem_map_of_mem f h)

/-- Updating the objects that satisfy a condition changes nothing when no
object of the list satisfies it. -/
theorem map_ite_eq_self {α : Type} (P : α → Prop) [DecidablePred P] (g : α → α) (l : List α)
    (h : ∀ x ∈ l, ¬ P x) : l.map (fun x => if P x then g x else x) = l := by
  induction l with
  | nil => rfl
  | cons a t ih =>
    have ha : ¬ P a := h a (List.mem_cons_self _ _)
    simp only [List.map_cons, if_neg ha]
    rw [ih (fun x hx => h x (List.mem_cons_of_mem _ hx))]

/-- What `make_new_tex` computes: it stops when an error is pending or a size
is negative; otherwise it returns a fresh name, and the texture of that name
is live, bound in the active unit, and has the size asked for. -/
theorem make_new_tex_eq (width height : ℤ) (s : State) :
    make_new_tex width height s =
      if s.gl_error = false ∧ 0 ≤ width ∧ 0 ≤ height then
        some (fresh_name (s.textures.map TexObj.name),
          { s with
            textures := ⟨fresh_name (s.textures.map TexObj.name), width, height⟩ :: s.textures
            tex_binding := Function.update s.tex_binding s.active_texture
              (fresh_name (s.textures.map TexObj.name))
            log := s.log ++ [Event.tex_image (fresh_name (s.textures.map TexObj.name)) width height] })
      else none := by
  have hmap : ∀ n, n = fresh_name (s.textures.map TexObj.name) →
      s.textures.map (fun t => if t.name = n then { t with width := width, height := height } else t)
        = s.textures := by
    intro n hn
    apply map_ite_eq_self
    intro x hx
    rw [hn]
    exact name_ne_fresh TexObj.name _ x hx
  by_cases hwh : width < 0 ∨ height < 0
  · have : ¬ (s.gl_error = false ∧ 0 ≤ width ∧ 0 ≤ height) := by
      rintro ⟨_, h1, h2⟩; omega
    simp [make_new_tex, glGenTextures, glBindTexture, glTexImage2D, GL_ASSERT_OK, assert, hwh, this]
  · have h1 : 0 ≤ width ∧ 0 ≤ height := by omega
    cases he : s.gl_error
    · simp [make_new_tex, glGenTextures, glBindTexture, glTexImage2D, GL_ASSERT_OK, assert, hwh,
        he, h1, bound_texture, hmap]
    · simp [make_new_tex, glGenTextures, glBindTexture, glTexImage2D, GL_ASSERT_OK, assert, hwh,
        he, h1]

/-- Deleting a name that no object of the list has changes nothing. -/
theorem filter_name_ne_eq_self {α : Type} (f : α → ℕ) (l : List α) (n : ℕ)
    (h : ∀ x ∈ l, f x ≠ n) : l.filter (fun x => !decide (f x = n)) = l := by
  rw [List.filter_eq_self]
  intro x hx
  simpa using h x hx

/-- What `render_refraction_tex` computes: it stops unless the texture is live
with a positive width and height and no error is pending; otherwise it draws
the scene once, under a framebuffer and a renderbuffer of its own that it
deletes again, and leaves the framebuffer `0` bound and the viewport at the
size of the texture. -/
theorem render_refraction_tex_eq (K : TileConsts) (tex : ℕ) (s : State) :
    render_refraction_tex K tex s =
      match s.textures.find? (fun t => t.name = tex) with
      | none => none
      | some t =>
        if 0 < t.width ∧ 0 < t.height ∧ s.gl_error = false then
          some { s with
            tex_binding := Function.update s.tex_binding s.active_texture tex
            fb_binding := 0
            rb_binding := 0
            clip_distance0 := false
            clip_plane := refraction_plane_eq K
            viewport := ⟨0, 0, t.width, t.height⟩
            log := s.log ++ [Event.render_scene (fresh_name (s.framebuffers.map FbObj.name))
              ⟨0, 0, t.width, t.height⟩ (some (refraction_plane_eq K)) s.shared_cam] }
        else none := by
  have hF : ∀ x ∈ s.framebuffers, x.name ≠ fresh_name (s.framebuffers.map FbObj.name) :=
    fun x hx => name_ne_fresh FbObj.name _ x hx
  have hR : ∀ x ∈ s.renderbuffers, x.name ≠ fresh_name (s.renderbuffers.map RbObj.name) :=
    fun x hx => name_ne_fresh RbObj.name _ x hx
  have hfb1 : s.framebuffers.map (fun f =>
      if f.name = fresh_name (s.framebuffers.map FbObj.name) then
        { f with depth := fresh_name (s.renderbuffers.map RbObj.name) } else f) = s.framebuffers :=
    map_ite_eq_self _ _ _ hF
  have hfb2 : s.framebuffers.map (fun f =>
      if f.name = fresh_name (s.framebuffers.map FbObj.name) then
        { f with color := tex } else f) = s.framebuffers :=
    map_ite_eq_self _ _ _ hF
  have hfb3 : s.framebuffers.map (fun f =>
      if f.name = fresh_name (s.framebuffers.map FbObj.name) ∧
          f.depth = fresh_name (s.renderbuffers.map RbObj.name) then
        { f with depth := 0 } else f) = s.framebuffers :=
    map_ite_eq_self _ _ _ (fun x hx hP => hF x hx hP.1)
  have hrb1 : ∀ w h : ℤ, s.renderbuffers.map (fun r =>
      if r.name = fresh_name (s.renderbuffers.map RbObj.name) then
        { r with width := w, height := h } else r) = s.renderbuffers :=
    fun w h => map_ite_eq_self _ _ _ hR
  have hfbf := filter_name_ne_eq_self FbObj.name s.framebuffers _ hF
  have hrbf := filter_name_ne_eq_self RbObj.name s.renderbuffers _ hR
  cases hfind : s.textures.find? (fun t => decide (t.name = tex)) with
  | none =>
    simp [render_refraction_tex, glBindTexture, glGetTexLevelParameteriv_WIDTH,
      glGetTexLevelParameteriv_HEIGHT, bound_texture, hfind, glGenFramebuffers, glBindFramebuffer,
      glGenRenderbuffers, glBindRenderbuffer, glRenderbufferStorage, glFramebufferRenderbuffer,
      glFramebufferTexture, framebuffer_complete, assert, fresh_name_ne_zero]
  | some t =>
    by_cases hwh : t.width < 0 ∨ t.height < 0
    · have : ¬ (0 < t.width ∧ 0 < t.height ∧ s.gl_error = false) := by
        rintro ⟨h1, h2, _⟩; omega
      simp [render_refraction_tex, glBindTexture, glGetTexLevelParameteriv_WIDTH,
        glGetTexLevelParameteriv_HEIGHT, bound_texture, hfind, glGenFramebuffers,
        glBindFramebuffer, glGenRenderbuffers, glBindRenderbuffer, glRenderbufferStorage,
        glFramebufferRenderbuffer, glFramebufferTexture, framebuffer_complete, assert,
        fresh_name_ne_zero, hwh, this]
    · by_cases hpos : 0 < t.width ∧ 0 < t.height
      · cases he : s.gl_error <;>
        simp [render_refraction_tex, glBindTexture, glGetTexLevelParameteriv_WIDTH,
          glGetTexLevelParameteriv_HEIGHT, bound_texture, hfind, glGenFramebuffers,
          glBindFramebuffer, glGenRenderbuffers, glBindRenderbuffer, glRenderbufferStorage,
          glFramebufferRenderbuffer, glFramebufferTexture, framebuffer_complete, assert,
          fresh_name_ne_zero, hwh, hpos, glEnable_CLIP_DISTANCE0, R_GL_SetClipPlane, glViewport,
          G_RenderMapAndEntities, glDeleteRenderbuffers, glDeleteFramebuffers,
          glDisable_CLIP_DISTANCE0, GL_ASSERT_OK, he, hfb1, hfb2, hfb3, hrb1, hfbf, hrbf,
          -List.map_map]
      · have : ¬ (0 < t.width ∧ 0 < t.height ∧ s.gl_error = false) := by
          rintro ⟨h1, h2, _⟩; exact hpos ⟨h1, h2⟩
        simp [render_refraction_tex, glBindTexture, glGetTexLevelParameteriv_WIDTH,
          glGetTexLevelParameteriv_HEIGHT, bound_texture, hfind, glGenFramebuffers,
          glBindFramebuffer, glGenRenderbuffers, glBindRenderbuffer, glRenderbufferStorage,
          glFramebufferRenderbuffer, glFramebufferTexture, framebuffer_complete, assert,
          fresh_name_ne_zero, hwh, this]
        intro h1 h2
        exact absurd ⟨h1, h2⟩ hpos

/-- What `render_reflection_tex` computes: as the refraction pass, with the
plane of the reflection and with the shared camera transform replaced by the
mirrored camera. -/
theorem render_reflection_tex_eq (K : TileConsts) (tex : ℕ) (s : State) :
    render_reflection_tex K tex s =
      match s.textures.find? (fun t => t.name = tex) with
      | none => none
      | some t =>
        if 0 < t.width ∧ 0 < t.height ∧ s.gl_error = false then
          some { s with
            tex_binding := Function.update s.tex_binding s.active_texture tex
            fb_binding := 0
            rb_binding := 0
            clip_distance0 := false
            clip_plane := reflection_plane_eq K
            viewport := ⟨0, 0, t.width, t.height⟩
            shared_cam := ⟨mirror_cam_pos K s.active_cam_pos, mirror_cam_dir s.active_cam_dir⟩
            log := s.log ++ [Event.render_scene (fresh_name (s.framebuffers.map FbObj.name))
              ⟨0, 0, t.width, t.height⟩ (some (reflection_plane_eq K))
              ⟨mirror_cam_pos K s.active_cam_pos, mirror_cam_dir s.active_cam_dir⟩] }
        else none := by
  have hF : ∀ x ∈ s.framebuffers, x.name ≠ fresh_name (s.framebuffers.map FbObj.name) :=
    fun x hx => name_ne_fresh FbObj.name _ x hx
  have hR : ∀ x ∈ s.renderbuffers, x.name ≠ fresh_name (s.renderbuffers.map RbObj.name) :=
    fun x hx => name_ne_fresh RbObj.name _ x hx
  have hfb1 : s.framebuffers.map (fun f =>
      if f.name = fresh_name (s.framebuffers.map FbObj.name) then
        { f with depth := fresh_name (s.renderbuffers.map RbObj.name) } else f) = s.framebuffers :=
    map_ite_eq_self _ _ _ hF
  have hfb2 : s.framebuffers.map (fun f =>
      if f.name = fresh_name (s.framebuffers.map FbObj.name) then
        { f with color := tex } else f) = s.framebuffers :=
    map_ite_eq_self _ _ _ hF
  have hfb3 : s.framebuffers.map (fun f =>
      if f.name = fresh_name (s.framebuffers.map FbObj.name) ∧
          f.depth = fresh_name (s.renderbuffers.map RbObj.name) then
        { f with depth := 0 } else f) = s.framebuffers :=
    map_ite_eq_self _ _ _ (fun x hx hP => hF x hx hP.1)
  have hrb1 : ∀ w h : ℤ, s.renderbuffers.map (fun r =>
      if r.name = fresh_name (s.renderbuffers.map RbObj.name) then
        { r with width := w, height := h } else r) = s.renderbuffers :=
    fun w h => map_ite_eq_self _ _ _ hR
  have hfbf := filter_name_ne_eq_self FbObj.name s.framebuffers _ hF
  have hrbf := filter_name_ne_eq_self RbObj.name s.renderbuffers _ hR
  cases hfind : s.textures.find? (fun t => decide (t.name = tex)) with
  | none =>
    simp [render_reflection_tex, glBindTexture, glGetTexLevelParameteriv_WIDTH,
      glGetTexLevelParameteriv_HEIGHT, bound_texture, hfind, camera_zero, Camera_SetPos, Camera_SetDir,
          Camera_TickFinishPerspective, G_ActiveCamPos, G_ActiveCamDir, glGenFramebuffers, glBindFramebuffer,
      glGenRenderbuffers, glBindRenderbuffer, glRenderbufferStorage, glFramebufferRenderbuffer,
      glFramebufferTexture, framebuffer_complete, assert, fresh_name_ne_zero]
  | some t =>
    by_cases hwh : t.width < 0 ∨ t.height < 0
    · have : ¬ (0 < t.width ∧ 0 < t.height ∧ s.gl_error = false) := by
        rintro ⟨h1, h2, _⟩; omega
      simp [render_reflection_tex, glBindTexture, glGetTexLevelParameteriv_WIDTH,
        glGetTexLevelParameteriv_HEIGHT, bound_texture, hfind, camera_zero, Camera_SetPos, Camera_SetDir,
          Camera_TickFinishPerspective, G_ActiveCamPos, G_ActiveCamDir, glGenFramebuffers,
        glBindFramebuffer, glGenRenderbuffers, glBindRenderbuffer, glRenderbufferStorage,
        glFramebufferRenderbuffer, glFramebufferTexture, framebuffer_complete, assert,
        fresh_name_ne_zero, hwh, this]
    · by_cases hpos : 0 < t.width ∧ 0 < t.height
      · cases he : s.gl_error <;>
        simp [render_reflection_tex, glBindTexture, glGetTexLevelParameteriv_WIDTH,
          glGetTexLevelParameteriv_HEIGHT, bound_texture, hfind, camera_zero, Camera_SetPos, Camera_SetDir,
          Camera_TickFinishPerspective, G_ActiveCamPos, G_ActiveCamDir, glGenFramebuffers,
          glBindFramebuffer, glGenRenderbuffers, glBindRenderbuffer, glRenderbufferStorage,
          glFramebufferRenderbuffer, glFramebufferTexture, framebuffer_complete, assert,
          fresh_name_ne_zero, hwh, hpos, glEnable_CLIP_DISTANCE0, R_GL_SetClipPlane, glViewport,
          G_RenderMapAndEntities, glDeleteRenderbuffers, glDeleteFramebuffers,
          glDisable_CLIP_DISTANCE0, GL_ASSERT_OK, he, hfb1, hfb2, hfb3, hrb1, hfbf, hrbf,
          -List.map_map]
      · have : ¬ (0 < t.width ∧ 0 < t.height ∧ s.gl_error = false) := by
          rintro ⟨h1, h2, _⟩; exact hpos ⟨h1, h2⟩
        simp [render_reflection_tex, glBindTexture, glGetTexLevelParameteriv_WIDTH,
          glGetTexLevelParameteriv_HEIGHT, bound_texture, hfind, camera_zero, Camera_SetPos, Camera_SetDir,
          Camera_TickFinishPerspective, G_ActiveCamPos, G_ActiveCamDir, glGenFramebuffers,
          glBindFramebuffer, glGenRenderbuffers, glBindRenderbuffer, glRenderbufferStorage,
          glFramebufferRenderbuffer, glFramebufferTexture, framebuffer_complete, assert,
          fresh_name_ne_zero, hwh, this]
        intro h1 h2
        exact absurd ⟨h1, h2⟩ hpos


/-- The value of `height_for_width` depends on the viewport only. -/
theorem height_for_width_congr (s s' : State) (W : ℤ) (h : s.viewport = s'.viewport) :
    height_for_width s W = height_for_width s' W := by
  simp only [height_for_width, h]

/-- What the offscreen part of `R_GL_DrawWater` computes: it returns exactly
when no error is pending and the heights `H1` and `H2` of the two textures are
positive, `H1` being computed with the viewport of the caller and `H2` with the
viewport `(0, 0, WBUFF_RES_X, H1)` that the refraction pass leaves. -/
theorem R_GL_DrawWater_offscreen_eq (K : TileConsts) (s : State) (H1 H2 : ℤ) (T1 T2 : ℕ)
    (hH1 : height_for_width s WBUFF_RES_X = H1)
    (hH2 : ∀ s' : State, s'.viewport = ⟨0, 0, WBUFF_RES_X, H1⟩ →
      height_for_width s' WBUFF_RES_X = H2)
    (hT1 : T1 = fresh_name (s.textures.map TexObj.name))
    (hT2 : T2 = fresh_name (T1 :: s.textures.map TexObj.name)) :
    R_GL_DrawWater_offscreen K s =
      if s.gl_error = false ∧ 0 < H1 ∧ 0 < H2 then
        some (T1, T2, restore_gl_state (save_gl_state s)
          { s with
            textures := ⟨T2, WBUFF_RES_X, H2⟩ :: ⟨T1, WBUFF_RES_X, H1⟩ :: s.textures
            tex_binding := Function.update s.tex_binding s.active_texture T2
            fb_binding := 0
            rb_binding := 0
            clip_distance0 := false
            clip_plane := reflection_plane_eq K
            viewport := ⟨0, 0, WBUFF_RES_X, H2⟩
            shared_cam := ⟨mirror_cam_pos K s.active_cam_pos, mirror_cam_dir s.active_cam_dir⟩
            log := s.log ++
              [Event.tex_image T1 WBUFF_RES_X H1,
               Event.render_scene (fresh_name (s.framebuffers.map FbObj.name))
                 ⟨0, 0, WBUFF_RES_X, H1⟩ (some (refraction_plane_eq K)) s.shared_cam,
               Event.tex_image T2 WBUFF_RES_X H2,
               Event.render_scene (fresh_name (s.framebuffers.map FbObj.name))
                 ⟨0, 0, WBUFF_RES_X, H2⟩ (some (reflection_plane_eq K))
                 ⟨mirror_cam_pos K s.active_cam_pos, mirror_cam_dir s.active_cam_dir⟩] })
      else none := by
  have hT1pos : 0 < T1 := hT1 ▸ fresh_name_pos _
  have hT2pos : 0 < T2 := hT2 ▸ fresh_name_pos _
  have hW0 : (0 : ℤ) ≤ WBUFF_RES_X := by decide
  have hW1 : (0 : ℤ) < WBUFF_RES_X := by decide
  by_cases he : s.gl_error = false
  · by_cases hpos : 0 < H1
    · by_cases hpos2 : 0 < H2
      · simp [R_GL_DrawWater_offscreen, hH1, he, make_new_tex_eq,
          render_refraction_tex_eq, render_reflection_tex_eq, assert, hW0, hW1,
          hpos, hpos.le, hpos2, hpos2.le, ← hT1, ← hT2, hT1pos, hT2pos, hH2]
      · simp [R_GL_DrawWater_offscreen, hH1, he, make_new_tex_eq,
          render_refraction_tex_eq, render_reflection_tex_eq, assert, hW0, hW1,
          hpos, hpos.le, hpos2, ← hT1, ← hT2, hT1pos, hT2pos, hH2]
    · simp [R_GL_DrawWater_offscreen, hH1, he, make_new_tex_eq,
        render_refraction_tex_eq, render_reflection_tex_eq, assert, hW0, hW1,
        hpos, ← hT1, ← hT2, hT1pos, hT2pos]
  · simp [R_GL_DrawWater_offscreen, hH1, he, make_new_tex_eq]

/-! ## A frame: `R_GL_DrawWater` -/

/-- The value of `height_for_width` from the values of the two roundings. -/
theorem height_for_width_eval (s : State) (W : ℤ) (a r : ℚ) (v : ℤ)
    (hw : s.viewport.width ≠ 0) (hh : s.viewport.height ≠ 0)
    (hwb : |s.viewport.width| < 2 ^ 24) (hhb : |s.viewport.height| < 2 ^ 24) (hWb : |W| < 2 ^ 24)
    (ha : f32 ((s.viewport.width : ℚ) / (s.viewport.height : ℚ)) = a)
    (hr : f32 ((W : ℚ) / a) = r) (h0 : 0 ≤ r) (hv : ⌊r⌋ = v) (hmax : v ≤ INT_MAX) :
    height_for_width s W = v := by
  rw [height_for_width_of_exact s W hw hh hwb hhb hWb, ha, hr,
    float_to_int_of_nonneg r h0 (hv ▸ hmax), hv]

/-- On the 1366 by 768 viewport of `state0` the height is `449`. -/
theorem height_for_width_state0 : height_for_width state0 WBUFF_RES_X = 449 := by
  have ha : f32 (((1366 : ℤ) : ℚ) / ((768 : ℤ) : ℚ)) = 14920363 / 8388608 := by
    rw [f32_eq_of _ (0) 14920363 (by norm_num) (by norm_num [abs_of_pos])
      (by norm_num [abs_of_pos]) (by norm_num [abs_lt])]
    norm_num
  have hr : f32 (((800 : ℤ) : ℚ) / (14920363 / 8388608)) = 14738403 / 32768 := by
    rw [f32_eq_of _ (8) 14738403 (by norm_num) (by norm_num [abs_of_pos])
      (by norm_num [abs_of_pos]) (by norm_num [abs_lt])]
    norm_num
  exact height_for_width_eval state0 WBUFF_RES_X _ _ 449 (by decide) (by decide) (by decide)
    (by decide) (by decide) ha hr (by norm_num) (by rw [Int.floor_eq_iff]; norm_num) (by decide)

/-- On the 1920 by 1080 viewport of `state1` the height is `450`. -/
theorem height_for_width_state1 : height_for_width state1 WBUFF_RES_X = 450 := by
  have ha : f32 (((1920 : ℤ) : ℚ) / ((1080 : ℤ) : ℚ)) = 14913081 / 8388608 := by
    rw [f32_eq_of _ (0) 14913081 (by norm_num) (by norm_num [abs_of_pos])
      (by norm_num [abs_of_pos]) (by norm_num [abs_lt])]
    norm_num
  have hr : f32 (((800 : ℤ) : ℚ) / (14913081 / 8388608)) = 450 := by
    rw [f32_eq_of _ (8) 14745600 (by norm_num) (by norm_num [abs_of_pos])
      (by norm_num [abs_of_pos]) (by norm_num [abs_lt])]
    norm_num
  exact height_for_width_eval state1 WBUFF_RES_X _ _ 450 (by decide) (by decide) (by decide)
    (by decide) (by decide) ha hr (by norm_num) (by rw [Int.floor_eq_iff]; norm_num) (by decide)

/-- On an 800 by 450 viewport the height is `450`. -/
theorem height_for_width_800_450 : height_for_width (state_of_viewport 800 450) WBUFF_RES_X = 450 := by
  have ha : f32 (((800 : ℤ) : ℚ) / ((450 : ℤ) : ℚ)) = 14913081 / 8388608 := by
    rw [f32_eq_of _ (0) 14913081 (by norm_num) (by norm_num [abs_of_pos])
      (by norm_num [abs_of_pos]) (by norm_num [abs_lt])]
    norm_num
  have hr : f32 (((800 : ℤ) : ℚ) / (14913081 / 8388608)) = 450 := by
    rw [f32_eq_of _ (8) 14745600 (by norm_num) (by norm_num [abs_of_pos])
      (by norm_num [abs_of_pos]) (by norm_num [abs_lt])]
    norm_num
  exact height_for_width_eval (state_of_viewport 800 450) WBUFF_RES_X _ _ 450 (by decide) (by decide) (by decide)
    (by decide) (by decide) ha hr (by norm_num) (by rw [Int.floor_eq_iff]; norm_num) (by decide)

/-- On a 1600 by 720 viewport the height is `359`, one less than the exact
quotient `360`. -/
theorem height_for_width_1600_720 : height_for_width (state_of_viewport 1600 720) WBUFF_RES_X = 359 := by
  have ha : f32 (((1600 : ℤ) : ℚ) / ((720 : ℤ) : ℚ)) = 2330169 / 1048576 := by
    rw [f32_eq_of _ (1) 9320676 (by norm_num) (by norm_num [abs_of_pos])
      (by norm_num [abs_of_pos]) (by norm_num [abs_lt])]
    norm_num
  have hr : f32 (((800 : ℤ) : ℚ) / (2330169 / 1048576)) = 11796479 / 32768 := by
    rw [f32_eq_of _ (8) 11796479 (by norm_num) (by norm_num [abs_of_pos])
      (by norm_num [abs_of_pos]) (by norm_num [abs_lt])]
    norm_num
  exact height_for_width_eval (state_of_viewport 1600 720) WBUFF_RES_X _ _ 359 (by decide) (by decide) (by decide)
    (by decide) (by decide) ha hr (by norm_num) (by rw [Int.floor_eq_iff]; norm_num) (by decide)

/-- On a 1600 by 91 viewport the height is `45`. -/
theorem height_for_width_1600_91 : height_for_width (state_of_viewport 1600 91) WBUFF_RES_X = 45 := by
  have ha : f32 (((1600 : ℤ) : ℚ) / ((91 : ℤ) : ℚ)) = 9218251 / 524288 := by
    rw [f32_eq_of _ (4) 9218251 (by norm_num) (by norm_num [abs_of_pos])
      (by norm_num [abs_of_pos]) (by norm_num [abs_lt])]
    norm_num
  have hr : f32 (((800 : ℤ) : ℚ) / (9218251 / 524288)) = 11927551 / 262144 := by
    rw [f32_eq_of _ (5) 11927551 (by norm_num) (by norm_num [abs_of_pos])
      (by norm_num [abs_of_pos]) (by norm_num [abs_lt])]
    norm_num
  exact height_for_width_eval (state_of_viewport 1600 91) WBUFF_RES_X _ _ 45 (by decide) (by decide) (by decide)
    (by decide) (by decide) ha hr (by norm_num) (by rw [Int.floor_eq_iff]; norm_num) (by decide)

/-- On an 800 by 45 viewport the height is `44`. -/
theorem height_for_width_800_45 : height_for_width (state_of_viewport 800 45) WBUFF_RES_X = 44 := by
  have ha : f32 (((800 : ℤ) : ℚ) / ((45 : ℤ) : ℚ)) = 2330169 / 131072 := by
    rw [f32_eq_of _ (4) 9320676 (by norm_num) (by norm_num [abs_of_pos])
      (by norm_num [abs_of_pos]) (by norm_num [abs_lt])]
    norm_num
  have hr : f32 (((800 : ℤ) : ℚ) / (2330169 / 131072)) = 11796479 / 262144 := by
    rw [f32_eq_of _ (5) 11796479 (by norm_num) (by norm_num [abs_of_pos])
      (by norm_num [abs_of_pos]) (by norm_num [abs_lt])]
    norm_num
  exact height_for_width_eval (state_of_viewport 800 45) WBUFF_RES_X _ _ 44 (by decide) (by decide) (by decide)
    (by decide) (by decide) ha hr (by norm_num) (by rw [Int.floor_eq_iff]; norm_num) (by decide)


/-- After a pass on a texture of height `h1`, with `0 < h1` and
`WBUFF_RES_X * h1 ≤ 2^22`, `height_for_width(WBUFF_RES_X)` is `h1` or `h1 - 1`. -/
theorem second_height_cases (s : State) (h1 : ℤ) (hv : s.viewport = ⟨0, 0, WBUFF_RES_X, h1⟩)
    (hpos : 0 < h1) (hb : WBUFF_RES_X * h1 ≤ 2 ^ 22) :
    height_for_width s WBUFF_RES_X = h1 ∨ height_for_width s WBUFF_RES_X = h1 - 1 := by
  have hw : s.viewport.width = WBUFF_RES_X := by rw [hv]
  have hh : s.viewport.height = h1 := by rw [hv]
  have h := (height_for_width_cases s WBUFF_RES_X (by rw [hw]; decide) (by rw [hh]; exact hpos)
    (by decide) (by rw [hw]; decide) (by rw [hh]; exact hb)).2
    (by rw [hw, hh]; exact Dvd.intro _ rfl)
  have hq : WBUFF_RES_X * s.viewport.height / s.viewport.width = h1 := by
    rw [hw, hh]
    exact Int.mul_ediv_cancel_left _ (by decide)
  rwa [hq] at h

/-- After a pass on a texture of height `1`, `height_for_width(WBUFF_RES_X)` is `1`. -/
theorem second_height_one (s : State) (hv : s.viewport = ⟨0, 0, WBUFF_RES_X, 1⟩) :
    height_for_width s WBUFF_RES_X = 1 := by
  have hw : s.viewport.width = WBUFF_RES_X := by rw [hv]
  have hh : s.viewport.height = 1 := by rw [hv]
  have ha : f32 ((s.viewport.width : ℚ) / (s.viewport.height : ℚ)) = 800 := by
    rw [hw, hh]
    have := f32_int 800 (by decide)
    simpa [WBUFF_RES_X] using this
  have hr : f32 ((WBUFF_RES_X : ℚ) / 800) = 1 := by
    have := f32_int 1 (by decide)
    simpa [WBUFF_RES_X] using this
  exact height_for_width_eval s WBUFF_RES_X _ _ 1 (by rw [hw]; decide) (by rw [hh]; decide)
    (by rw [hw]; decide) (by rw [hh]; decide) (by decide) ha hr (by norm_num)
    (by simp) (by decide)

/-- The second height is positive when the first one is and
`WBUFF_RES_X * h1 ≤ 2^22`. -/
theorem second_height_pos (s : State) (h1 : ℤ) (hv : s.viewport = ⟨0, 0, WBUFF_RES_X, h1⟩)
    (hpos : 0 < h1) (hb : WBUFF_RES_X * h1 ≤ 2 ^ 22) :
    0 < height_for_width s WBUFF_RES_X := by
  by_cases h : h1 = 1
  · subst h
    rw [second_height_one s hv]; decide
  · rcases second_height_cases s h1 hv hpos hb with e | e <;> rw [e] <;> omega

/-- What a run of `R_GL_DrawWater` that returns has done. -/
theorem R_GL_DrawWater_some (K : TileConsts) (m : map) (s s' : State) (H1 H2 : ℤ) (T1 T2 : ℕ)
    (hH1 : height_for_width s WBUFF_RES_X = H1)
    (hH2 : ∀ s' : State, s'.viewport = ⟨0, 0, WBUFF_RES_X, H1⟩ →
      height_for_width s' WBUFF_RES_X = H2)
    (hT1 : T1 = fresh_name (s.textures.map TexObj.name))
    (hT2 : T2 = fresh_name (T1 :: s.textures.map TexObj.name))
    (hrun : R_GL_DrawWater K m s = some s') :
    (0 ≤ s.viewport.width ∧ 0 ≤ s.viewport.height ∧ s.gl_error = false ∧ 0 < H1 ∧ 0 < H2) ∧
    s'.viewport = s.viewport ∧ s'.fb_binding = s.fb_binding ∧ s'.textures = s.textures ∧
    s'.active_cam_pos = s.active_cam_pos ∧ s'.active_cam_dir = s.active_cam_dir ∧
    s'.shared_cam = ⟨s.active_cam_pos, s.active_cam_dir⟩ ∧
    s'.gl_error = false ∧
    s'.log = s.log ++
      [Event.tex_image T1 WBUFF_RES_X H1,
       Event.render_scene (fresh_name (s.framebuffers.map FbObj.name))
         ⟨0, 0, WBUFF_RES_X, H1⟩ (some (refraction_plane_eq K)) s.shared_cam,
       Event.tex_image T2 WBUFF_RES_X H2,
       Event.render_scene (fresh_name (s.framebuffers.map FbObj.name))
         ⟨0, 0, WBUFF_RES_X, H2⟩ (some (reflection_plane_eq K))
         ⟨mirror_cam_pos K s.active_cam_pos, mirror_cam_dir s.active_cam_dir⟩,
       Event.uniform_color (R_Shader_GetProgForName "mesh.static.colored" s) ⟨0, 0, 1, 1⟩,
       Event.activate s.s_ctx.dudv (R_Shader_GetProgForName "mesh.static.colored" s),
       Event.activate s.s_ctx.normal (R_Shader_GetProgForName "mesh.static.colored" s),
       Event.uniform_model (R_Shader_GetProgForName "mesh.static.colored" s)
         (water_model_matrix K m),
       Event.draw_arrays (R_Shader_GetProgForName "mesh.static.colored" s)
         s.s_ctx.surface.VAO s.s_ctx.surface.num_verts] := by
  have hT1pos : T1 ≠ 0 := hT1 ▸ fresh_name_ne_zero _
  have hT2pos : T2 ≠ 0 := hT2 ▸ fresh_name_ne_zero _
  have hT1n : ∀ x ∈ s.textures, x.name ≠ T1 := fun x hx => hT1 ▸ name_ne_fresh TexObj.name _ x hx
  have hT2n : ∀ x ∈ s.textures, x.name ≠ T2 := by
    intro x hx e
    have := fresh_name_not_mem (T1 :: s.textures.map TexObj.name)
    rw [← hT2, ← e] at this
    exact this (List.mem_cons_of_mem _ (List.mem_map_of_mem _ hx))
  have hT12 : T1 ≠ T2 := by
    intro e
    have := fresh_name_not_mem (T1 :: s.textures.map TexObj.name)
    rw [← hT2, ← e] at this
    exact this (List.mem_cons_self _ _)
  have hf1 := filter_name_ne_eq_self TexObj.name s.textures T1 hT1n
  have hf2 := filter_name_ne_eq_self TexObj.name s.textures T2 hT2n
  rw [R_GL_DrawWater, R_GL_DrawWater_offscreen_eq K s H1 H2 T1 T2 hH1 hH2 hT1 hT2] at hrun
  by_cases hc : s.gl_error = false ∧ 0 < H1 ∧ 0 < H2
  · rw [if_pos hc] at hrun
    obtain ⟨he, hpos, hpos2⟩ := hc
    by_cases hneg : s.viewport.width < 0 ∨ s.viewport.height < 0
    · simp [R_GL_DrawWater_composite, restore_gl_state, save_gl_state, glBindFramebuffer,
        glViewport, hneg, Camera_TickFinishPerspective, glUseProgram, glUniform4fv_COLOR,
        R_Texture_GL_Activate, glActiveTexture, glBindTexture, glUniformMatrix4fv_MODEL,
        glBindVertexArray, glDrawArrays, glDeleteTextures, hT1pos, hT2pos, GL_ASSERT_OK,
        assert] at hrun
    · simp [R_GL_DrawWater_composite, restore_gl_state, save_gl_state, glBindFramebuffer,
        glViewport, hneg, Camera_TickFinishPerspective, glUseProgram, glUniform4fv_COLOR,
        R_Texture_GL_Activate, glActiveTexture, glBindTexture, glUniformMatrix4fv_MODEL,
        glBindVertexArray, glDrawArrays, glDeleteTextures, hT1pos, hT2pos, GL_ASSERT_OK,
        assert, he, camera_zero, Camera_SetPos, Camera_SetDir, G_ActiveCamPos, G_ActiveCamDir,
        R_Shader_GetProgForName, hT12, hT12.symm, hf1, hf2] at hrun
      subst hrun
      simp [R_Shader_GetProgForName, he, hpos, hpos2]
      omega
  · rw [if_neg hc] at hrun
    simp at hrun

/-- A run of `R_GL_DrawWater` returns when the viewport has a width and a height
that are not negative, no error is pending and the heights of the two textures
are positive. -/
theorem R_GL_DrawWater_returns (K : TileConsts) (m : map) (s : State)
    (hw : 0 ≤ s.viewport.width) (hh : 0 ≤ s.viewport.height) (he : s.gl_error = false)
    (hpos : 0 < height_for_width s WBUFF_RES_X)
    (hpos2 : 0 < height_for_width
      (state_of_viewport WBUFF_RES_X (height_for_width s WBUFF_RES_X)) WBUFF_RES_X) :
    ∃ s', R_GL_DrawWater K m s = some s' := by
  have hneg : ¬ (s.viewport.width < 0 ∨ s.viewport.height < 0) := by omega
  rw [R_GL_DrawWater, R_GL_DrawWater_offscreen_eq K s _ _ _ _ rfl
    (fun s' hv => height_for_width_congr s' (state_of_viewport _ _) _ (by rw [hv]; rfl)) rfl rfl,
    if_pos ⟨he, hpos, hpos2⟩]
  simp [R_GL_DrawWater_composite, restore_gl_state, save_gl_state, glBindFramebuffer,
    glViewport, hneg, Camera_TickFinishPerspective, glUseProgram, glUniform4fv_COLOR,
    R_Texture_GL_Activate, glActiveTexture, glBindTexture, glUniformMatrix4fv_MODEL,
    glBindVertexArray, glDrawArrays, glDeleteTextures, fresh_name_ne_zero, GL_ASSERT_OK,
    assert, he]

/-- A run of `R_GL_DrawWater` on `state1` returns. -/
theorem R_GL_DrawWater_state1_returns :
    ∃ s', R_GL_DrawWater tile_consts0 map0 state1 = some s' :=
  R_GL_DrawWater_returns tile_consts0 map0 state1 (by decide) (by decide) rfl
    (by rw [height_for_width_state1]; decide)
    (by
      rw [height_for_width_state1]
      show 0 < height_for_width (state_of_viewport 800 450) WBUFF_RES_X
      rw [height_for_width_800_450]; decide)

/-- A run of `R_GL_DrawWater` that returns is a run of its offscreen part
followed by a run of its compositing part. -/
theorem R_GL_DrawWater_split (K : TileConsts) (m : map) (s s' : State)
    (hrun : R_GL_DrawWater K m s = some s') :
    ∃ t1 t2 s1, R_GL_DrawWater_offscreen K s = some (t1, t2, s1) ∧
      R_GL_DrawWater_composite K m t1 t2 s1 = some s' := by
  unfold R_GL_DrawWater at hrun
  cases h : R_GL_DrawWater_offscreen K s with
  | none => simp [h] at hrun
  | some r =>
    obtain ⟨t1, t2, s1⟩ := r
    simp [h] at hrun
    exact ⟨t1, t2, s1, rfl, hrun⟩

/-- The state in which the offscreen part of `R_GL_DrawWater` returns: the two
textures are new and live, the active camera is untouched, and the shared
camera transform is the one of the active camera. -/
theorem R_GL_DrawWater_offscreen_some (K : TileConsts) (s s1 : State) (t1 t2 : ℕ)
    (h : R_GL_DrawWater_offscreen K s = some (t1, t2, s1)) :
    t1 = fresh_name (s.textures.map TexObj.name) ∧
    t2 = fresh_name (t1 :: s.textures.map TexObj.name) ∧
    s1.textures.map TexObj.name = t2 :: t1 :: s.textures.map TexObj.name ∧
    s1.active_cam_pos = s.active_cam_pos ∧ s1.active_cam_dir = s.active_cam_dir ∧
    s1.shared_cam = ⟨s.active_cam_pos, s.active_cam_dir⟩ := by
  rw [R_GL_DrawWater_offscreen_eq K s _ _ _ _ rfl
    (fun s' hv => height_for_width_congr s' (state_of_viewport _ _) _ (by rw [hv]; rfl))
    rfl rfl] at h
  split at h
  · simp only [Option.some.injEq, Prod.mk.injEq] at h
    obtain ⟨rfl, rfl, rfl⟩ := h
    refine ⟨rfl, rfl, ?_, ?_, ?_, ?_⟩ <;>
    · simp only [restore_gl_state, save_gl_state, glBindFramebuffer, glViewport,
        Camera_TickFinishPerspective, camera_zero, Camera_SetPos, Camera_SetDir, G_ActiveCamPos,
        G_ActiveCamDir]
      split <;> simp
  · simp at h

/-! ## Initialisation and shutdown -/

/-- The two asset paths differ. -/
theorem DUDV_PATH_ne_NORM_PATH : DUDV_PATH ≠ NORM_PATH := by decide

/-- The mesh has six vertices. -/
theorem water_vbuff_length (K : TileConsts) : (water_vbuff K).length = 6 := rfl

/-- What `R_GL_WaterInit` computes, by the outcome of the two loads. -/
theorem R_GL_WaterInit_eq (K : TileConsts) (s : State) (D N V B : ℕ)
    (hD : D = fresh_name (s.textures.map TexObj.name))
    (hN : N = fresh_name (D :: s.textures.map TexObj.name))
    (hV : V = fresh_name s.vaos)
    (hB : B = fresh_name (s.buffers.map BufObj.name)) :
    R_GL_WaterInit K s =
      if DUDV_PATH ∈ s.assets then
        if NORM_PATH ∈ s.assets then
          if s.gl_error = false then
            some (true,
              { s with
                textures := ⟨N, 0, 0⟩ :: ⟨D, 0, 0⟩ :: s.textures
                tex_cache := (NORM_PATH, N) :: (DUDV_PATH, D) :: s.tex_cache
                vaos := V :: s.vaos
                vao_binding := V
                buffers := ⟨B, water_vbuff K⟩ :: s.buffers
                array_buffer_binding := B
                s_ctx := ⟨⟨V, B, 6⟩, ⟨D, GL_TEXTURE0⟩, ⟨N, GL_TEXTURE1⟩⟩ })
          else none
        else
          some (false,
            { s with
              tex_binding := fun u => if s.tex_binding u = D then 0 else s.tex_binding u
              framebuffers := s.framebuffers.map fun f =>
                if f.name = s.fb_binding ∧ f.color = D then { f with color := 0 } else f
              s_ctx := ⟨s.s_ctx.surface, ⟨D, GL_TEXTURE0⟩, s.s_ctx.normal⟩ })
      else some (false, s) := by
  have hD0 : D ≠ 0 := hD ▸ fresh_name_ne_zero _
  have hDn : ∀ x ∈ s.textures, x.name ≠ D := fun x hx => hD ▸ name_ne_fresh TexObj.name _ x hx
  have hfD := filter_name_ne_eq_self TexObj.name s.textures D hDn
  have hBn : ∀ x ∈ s.buffers, x.name ≠ B := fun x hx => hB ▸ name_ne_fresh BufObj.name _ x hx
  have hbuf : s.buffers.map (fun b => if b.name = B then { b with data := water_vbuff K } else b)
      = s.buffers := map_ite_eq_self _ _ _ hBn
  by_cases h1 : DUDV_PATH ∈ s.assets
  · by_cases h2 : NORM_PATH ∈ s.assets
    · cases he : s.gl_error <;>
      simp [R_GL_WaterInit, R_Texture_Load, glGenTextures, h1, h2, he, glGenVertexArrays,
        glBindVertexArray, glGenBuffers, glBindBuffer, glBufferData, GL_ASSERT_OK, assert,
        ← hD, ← hN, ← hV, ← hB, hbuf, water_vbuff_length]
    · simp [R_GL_WaterInit, R_Texture_Load, glGenTextures, h1, h2, R_Texture_Free,
        glDeleteTextures, ← hD, hD0, hfD]
  · simp [R_GL_WaterInit, R_Texture_Load, h1]

/-- What `R_GL_WaterShutdown` leaves after a successful `R_GL_WaterInit`: the
two textures are released; the vertex array object is still live; the buffers
that are deleted are the ones named like the vertex array object and the
vertex buffer. -/
theorem R_GL_WaterInit_then_Shutdown (K : TileConsts) (s s1 : State)
    (hinit : R_GL_WaterInit K s = some (true, s1)) :
    ∃ s2, R_GL_WaterShutdown s1 = some s2 ∧
      s2.textures = s.textures ∧
      s2.tex_cache = s.tex_cache ∧
      s1.vaos = fresh_name s.vaos :: s.vaos ∧
      s2.vaos = fresh_name s.vaos :: s.vaos ∧
      s2.buffers = s.buffers.filter (fun b => !decide (b.name = fresh_name s.vaos)) := by
  have hDn : ∀ x ∈ s.textures, x.name ≠ fresh_name (s.textures.map TexObj.name) :=
    fun x hx => name_ne_fresh TexObj.name _ x hx
  have hfD := filter_name_ne_eq_self TexObj.name s.textures _ hDn
  have hNn : ∀ x ∈ s.textures, x.name ≠
      fresh_name (fresh_name (s.textures.map TexObj.name) :: s.textures.map TexObj.name) := by
    intro x hx e
    have := fresh_name_not_mem (fresh_name (s.textures.map TexObj.name) :: s.textures.map TexObj.name)
    rw [← e] at this
    exact this (List.mem_cons_of_mem _ (List.mem_map_of_mem _ hx))
  have hfN := filter_name_ne_eq_self TexObj.name s.textures _ hNn
  have hDN : fresh_name (s.textures.map TexObj.name) ≠
      fresh_name (fresh_name (s.textures.map TexObj.name) :: s.textures.map TexObj.name) := by
    intro e
    have := fresh_name_not_mem (fresh_name (s.textures.map TexObj.name) :: s.textures.map TexObj.name)
    rw [← e] at this
    exact this (List.mem_cons_self _ _)
  have hBn : ∀ x ∈ s.buffers, x.name ≠ fresh_name (s.buffers.map BufObj.name) :=
    fun x hx => name_ne_fresh BufObj.name _ x hx
  have hbeq : (DUDV_PATH == NORM_PATH) = false := by decide
  rw [R_GL_WaterInit_eq K s _ _ _ _ rfl rfl rfl rfl] at hinit
  split at hinit
  · split at hinit
    · split at hinit
      · simp only [Option.some.injEq, Prod.mk.injEq, true_and] at hinit
        subst hinit
        simp [R_GL_WaterShutdown, assert, fresh_name_pos, R_Texture_Free, glDeleteTextures,
          glDeleteBuffers, fresh_name_ne_zero, DUDV_PATH_ne_NORM_PATH, DUDV_PATH_ne_NORM_PATH.symm,
          hfD, hfN, hDN, hDN.symm, List.lookup_cons, List.erase_cons, hbeq]
        apply List.filter_congr
        intro x hx
        simp [hBn x hx]
      · simp at hinit
    · simp at hinit
  · simp at hinit

/-- C4 as stated fails: with the 1366 by 768 viewport of `state0` and the
target width 800 the exact quotient is `449.78...`; `height_for_width` returns
`449`, the nearest integer is `450`. -/
theorem height_for_width_not_rounded :
    height_for_width state0 800 = 449 ∧
    round ((800 : ℚ) / ((state0.viewport.width : ℚ) / (state0.viewport.height : ℚ))) = 450 ∧
    height_for_width state0 800 ≠
      round ((800 : ℚ) / ((state0.viewport.width : ℚ) / (state0.viewport.height : ℚ))) := by
  have h1 : height_for_width state0 800 = 449 := height_for_width_state0
  have h2 : round ((800 : ℚ) / ((state0.viewport.width : ℚ) / (state0.viewport.height : ℚ)))
      = 450 := by
    simp only [state0]
    rw [round_eq, Int.floor_eq_iff]; norm_num
  refine ⟨h1, h2, ?_⟩
  rw [h1, h2]
  decide

/-- The floor of the exact quotient `W / (w/h)` is the integer quotient of
`W * h` by `w`. -/
theorem floor_aspect_quotient (w h W : ℤ) (hw : 0 < w) (hh : 0 < h) :
    ⌊(W : ℚ) / ((w : ℚ) / (h : ℚ))⌋ = W * h / w := by
  have hw' : (w : ℚ) ≠ 0 := by exact_mod_cast hw.ne'
  have hh' : (h : ℚ) ≠ 0 := by exact_mod_cast hh.ne'
  have hwq : (0 : ℚ) < w := by exact_mod_cast hw
  have e : (W : ℚ) / ((w : ℚ) / (h : ℚ)) = ((W * h : ℤ) : ℚ) / (w : ℚ) := by
    push_cast; field_simp
  rw [e, Int.floor_eq_iff]
  constructor
  · rw [le_div_iff₀ hwq]
    exact_mod_cast Int.ediv_mul_le (W * h) hw.ne'
  · rw [div_lt_iff₀ hwq]
    exact_mod_cast Int.lt_ediv_add_one_mul_self (W * h) hw

/-- C4, amended: for every viewport of positive width `w < 2^24` and positive
height `h` and every positive target width `W` with `W * h ≤ 2^22`,
`height_for_width(W)` returns the `float` quotient `W / (w/h)` truncated to an
integer, which is the floor of the exact `W / (w/h)`, the integer quotient of
`W * h` by `w`, when `w` does not divide `W * h`, and that quotient or one less
when it does; on a 1600 by 720 viewport and for the width 800, where the exact
quotient is `360`, it returns `359`. -/
theorem height_for_width_truncates (s : State) (W : ℤ) (hw : 0 < s.viewport.width)
    (hh : 0 < s.viewport.height) (hW : 0 < W) (hwb : s.viewport.width < 2 ^ 24)
    (hb : W * s.viewport.height ≤ 2 ^ 22) :
    ⌊(W : ℚ) / ((s.viewport.width : ℚ) / (s.viewport.height : ℚ))⌋ =
      W * s.viewport.height / s.viewport.width ∧
    (¬ s.viewport.width ∣ W * s.viewport.height →
      height_for_width s W = W * s.viewport.height / s.viewport.width) ∧
    (s.viewport.width ∣ W * s.viewport.height →
      height_for_width s W = W * s.viewport.height / s.viewport.width ∨
      height_for_width s W = W * s.viewport.height / s.viewport.width - 1) ∧
    height_for_width (state_of_viewport 1600 720) 800 = 359 :=
  ⟨floor_aspect_quotient _ _ W hw hh, (height_for_width_cases s W hw hh hW hwb hb).1,
    (height_for_width_cases s W hw hh hW hwb hb).2, height_for_width_1600_720⟩

/-- C4, amended, at the 1366 by 768 viewport of `state0` and the width 800:
`1366` does not divide `800 * 768`, and the height is `800 * 768 / 1366 = 449`. -/
theorem height_for_width_truncates_witness :
    (0 < state0.viewport.width ∧ 0 < state0.viewport.height ∧ (0 : ℤ) < 800 ∧
      state0.viewport.width < 2 ^ 24 ∧ 800 * state0.viewport.height ≤ 2 ^ 22 ∧
      ¬ state0.viewport.width ∣ 800 * state0.viewport.height) ∧
    height_for_width state0 800 = 800 * state0.viewport.height / state0.viewport.width ∧
    800 * state0.viewport.height / state0.viewport.width = 449 :=
  ⟨⟨by decide, by decide, by decide, by decide, by decide, by decide⟩,
    (height_for_width_truncates state0 800 (by decide) (by decide) (by decide) (by decide)
      (by decide)).2.1 (by decide), by decide⟩

/-- C5: when `R_GL_DrawWater` returns, the viewport rectangle and the bound
framebuffer are the ones of before the call, although the scene was drawn
twice in between under a framebuffer of the pass and with the viewport at the
size of the texture of the pass. -/
theorem R_GL_DrawWater_restores_viewport_and_framebuffer (K : TileConsts) (m : map)
    (s s' : State) (hrun : R_GL_DrawWater K m s = some s') :
    s'.viewport = s.viewport ∧ s'.fb_binding = s.fb_binding ∧
    ∃ fb H1 H2 cam1 cam2,
      Event.render_scene fb ⟨0, 0, WBUFF_RES_X, H1⟩ (some (refraction_plane_eq K)) cam1 ∈ s'.log ∧
      Event.render_scene fb ⟨0, 0, WBUFF_RES_X, H2⟩ (some (reflection_plane_eq K)) cam2 ∈ s'.log := by
  obtain ⟨-, hv, hf, -, -, -, -, -, hlog⟩ := R_GL_DrawWater_some K m s s' _ _ _ _ rfl
    (fun s1 hv => height_for_width_congr s1 (state_of_viewport _ _) _ (by rw [hv]; rfl))
    rfl rfl hrun
  refine ⟨hv, hf, fresh_name (s.framebuffers.map FbObj.name),
    height_for_width s WBUFF_RES_X,
    height_for_width (state_of_viewport WBUFF_RES_X (height_for_width s WBUFF_RES_X)) WBUFF_RES_X,
    s.shared_cam, ⟨mirror_cam_pos K s.active_cam_pos, mirror_cam_dir s.active_cam_dir⟩, ?_, ?_⟩ <;>
  rw [hlog] <;> simp

/-- C5 on `state1`: the run returns, with the viewport `(10, 20, 1920, 1080)`
and the framebuffer `5` of before the call. -/
theorem R_GL_DrawWater_restores_viewport_and_framebuffer_witness :
    ∃ s', R_GL_DrawWater tile_consts0 map0 state1 = some s' ∧
      s'.viewport = ⟨10, 20, 1920, 1080⟩ ∧ s'.fb_binding = 5 := by
  obtain ⟨s', h⟩ := R_GL_DrawWater_state1_returns
  have := R_GL_DrawWater_restores_viewport_and_framebuffer tile_consts0 map0 state1 s' h
  exact ⟨s', h, this.1, this.2.1⟩

/-- C8: a run of `R_GL_DrawWater` that returns has allocated exactly two
textures, both new, which are live when the offscreen part ends and are the
only textures given an image during the call; when the function returns both
are deleted and the live textures are the ones of before the call. A second
call in the state reached returns as well and leaves the same live textures
again. -/
theorem R_GL_DrawWater_transient_textures (K : TileConsts) (m : map) (s s' : State)
    (hrun : R_GL_DrawWater K m s = some s') :
    (∃ t1 t2 s1, R_GL_DrawWater_offscreen K s = some (t1, t2, s1) ∧
      R_GL_DrawWater_composite K m t1 t2 s1 = some s' ∧
      t1 ∉ live_textures s ∧ t2 ∉ live_textures s ∧ t1 ≠ t2 ∧
      live_textures s1 = t2 :: t1 :: live_textures s ∧
      ∃ evs, s'.log = s.log ++ evs ∧ evs.filterMap Event.tex_image_name = [t1, t2]) ∧
    s'.textures = s.textures ∧
    live_textures s' = live_textures s ∧
    ∃ s'', R_GL_DrawWater K m s' = some s'' ∧ s''.textures = s.textures ∧
      live_textures s'' = live_textures s := by
  have hcongr : ∀ s0 s1 : State, s1.viewport = ⟨0, 0, WBUFF_RES_X,
      height_for_width s0 WBUFF_RES_X⟩ → height_for_width s1 WBUFF_RES_X =
        height_for_width (state_of_viewport WBUFF_RES_X (height_for_width s0 WBUFF_RES_X))
          WBUFF_RES_X :=
    fun s0 s1 hv => height_for_width_congr s1 (state_of_viewport _ _) _ (by rw [hv]; rfl)
  obtain ⟨⟨hw, hh, -, hpos, hpos2⟩, hv, -, ht, -, -, -, he', hlog⟩ :=
    R_GL_DrawWater_some K m s s' _ _ _ _ rfl (hcongr s) rfl rfl hrun
  obtain ⟨t1, t2, s1, hoff, hcomp⟩ := R_GL_DrawWater_split K m s s' hrun
  obtain ⟨h1, h2, h3, -⟩ := R_GL_DrawWater_offscreen_some K s s1 t1 t2 hoff
  have hn1 : t1 ∉ live_textures s := h1 ▸ fresh_name_not_mem _
  have hn2 : t2 ∉ t1 :: live_textures s := h2 ▸ fresh_name_not_mem _
  have hH : height_for_width s' WBUFF_RES_X = height_for_width s WBUFF_RES_X :=
    height_for_width_congr s' s _ hv
  obtain ⟨s'', hrun2⟩ := R_GL_DrawWater_returns K m s' (hv ▸ hw) (hv ▸ hh) he'
    (by rw [hH]; exact hpos) (by rw [hH]; exact hpos2)
  obtain ⟨-, -, -, ht2, -⟩ := R_GL_DrawWater_some K m s' s'' _ _ _ _ rfl (hcongr s') rfl rfl hrun2
  refine ⟨⟨t1, t2, s1, hoff, hcomp, hn1, ?_, ?_, h3, _, hlog, ?_⟩, ht,
    by rw [live_textures, ht, live_textures],
    s'', hrun2, ht2.trans ht, by rw [live_textures, ht2, ht, live_textures]⟩
  · exact fun hmem => hn2 (List.mem_cons_of_mem _ hmem)
  · exact fun e => hn2 (e ▸ List.mem_cons_self _ _)
  · rw [h2, h1]
    rfl

/-- C8 on `state1`: the run returns, and the live textures are the two water
textures of before the call. -/
theorem R_GL_DrawWater_transient_textures_witness :
    ∃ s', R_GL_DrawWater tile_consts0 map0 state1 = some s' ∧
      live_textures state1 = [2, 1] ∧ live_textures s' = [2, 1] := by
  obtain ⟨s', h⟩ := R_GL_DrawWater_state1_returns
  have := (R_GL_DrawWater_transient_textures tile_consts0 map0 state1 s' h).2.2.1
  exact ⟨s', h, rfl, this⟩

/-- C9: a run of `R_GL_DrawWater` that returns has not changed the position and
the direction of the active camera; when the offscreen part ends, before the
compositor sets a uniform, and when the function returns, the shared camera
transform is the one of the active camera, although the reflection pass drew
the scene under the transform of the mirrored camera. -/
theorem R_GL_DrawWater_camera (K : TileConsts) (m : map) (s s' : State)
    (hrun : R_GL_DrawWater K m s = some s') :
    s'.active_cam_pos = s.active_cam_pos ∧ s'.active_cam_dir = s.active_cam_dir ∧
    s'.shared_cam = Camera_SetDir (Camera_SetPos camera_zero s.active_cam_pos) s.active_cam_dir ∧
    (∃ t1 t2 s1, R_GL_DrawWater_offscreen K s = some (t1, t2, s1) ∧
      R_GL_DrawWater_composite K m t1 t2 s1 = some s' ∧
      s1.active_cam_pos = s.active_cam_pos ∧ s1.active_cam_dir = s.active_cam_dir ∧
      s1.shared_cam = Camera_SetDir (Camera_SetPos camera_zero s.active_cam_pos) s.active_cam_dir) ∧
    (∃ fb vp, Event.render_scene fb vp (some (reflection_plane_eq K))
      (Camera_SetDir (Camera_SetPos camera_zero (mirror_cam_pos K s.active_cam_pos))
        (mirror_cam_dir s.active_cam_dir)) ∈ s'.log) := by
  obtain ⟨-, -, -, -, hp, hd, hc, -, hlog⟩ :=
    R_GL_DrawWater_some K m s s' _ _ _ _ rfl
      (fun s1 hv => height_for_width_congr s1 (state_of_viewport _ _) _ (by rw [hv]; rfl))
      rfl rfl hrun
  obtain ⟨t1, t2, s1, hoff, hcomp⟩ := R_GL_DrawWater_split K m s s' hrun
  obtain ⟨-, -, -, hp1, hd1, hc1⟩ := R_GL_DrawWater_offscreen_some K s s1 t1 t2 hoff
  refine ⟨hp, hd, hc, ⟨t1, t2, s1, hoff, hcomp, hp1, hd1, hc1⟩,
    fresh_name (s.framebuffers.map FbObj.name),
    ⟨0, 0, WBUFF_RES_X, height_for_width
      (state_of_viewport WBUFF_RES_X (height_for_width s WBUFF_RES_X)) WBUFF_RES_X⟩, ?_⟩
  rw [hlog]
  simp [Camera_SetDir, Camera_SetPos]

/-- C9 on `state1`, where the shared camera transform is a stale one before
the call: the run returns, the active camera is unchanged and the shared
camera transform is the one of the active camera. -/
theorem R_GL_DrawWater_camera_witness :
    state1.shared_cam = ⟨⟨0, 0, 0⟩, ⟨0, 0, 1⟩⟩ ∧
    ∃ s', R_GL_DrawWater tile_consts0 map0 state1 = some s' ∧
      s'.active_cam_pos = ⟨10, 50, -20⟩ ∧ s'.active_cam_dir = ⟨1, -1, 1⟩ ∧
      s'.shared_cam = ⟨⟨10, 50, -20⟩, ⟨1, -1, 1⟩⟩ := by
  obtain ⟨s', h⟩ := R_GL_DrawWater_state1_returns
  have := R_GL_DrawWater_camera tile_consts0 map0 state1 s' h
  exact ⟨rfl, s', h, this.1, this.2.1, this.2.2.1⟩

/-- The refraction pass on a new texture of positive height `h1` returns when no
error is pending, and leaves the viewport `(0, 0, WBUFF_RES_X, h1)`. -/
theorem refraction_pass_returns (K : TileConsts) (s : State) (h1 : ℤ)
    (he : s.gl_error = false) (hpos : 0 < h1) :
    ∃ r1 s2, make_new_tex WBUFF_RES_X h1 s = some r1 ∧
      render_refraction_tex K r1.1 r1.2 = some s2 ∧
      s2.viewport = ⟨0, 0, WBUFF_RES_X, h1⟩ := by
  have hm := make_new_tex_eq WBUFF_RES_X h1 s
  rw [if_pos ⟨he, by decide, hpos.le⟩] at hm
  have hr := render_refraction_tex_eq K (fresh_name (s.textures.map TexObj.name))
    { s with
      textures := ⟨fresh_name (s.textures.map TexObj.name), WBUFF_RES_X, h1⟩ :: s.textures
      tex_binding := Function.update s.tex_binding s.active_texture
        (fresh_name (s.textures.map TexObj.name))
      log := s.log ++ [Event.tex_image (fresh_name (s.textures.map TexObj.name)) WBUFF_RES_X h1] }
  simp only [List.find?_cons_of_pos, decide_True] at hr
  rw [if_pos ⟨by decide, hpos, he⟩] at hr
  exact ⟨_, _, hm, hr, rfl⟩

/-- C10 as stated fails. On a 1600 by 91 viewport the height of the refraction
texture is `45`; the refraction pass leaves the viewport `(0, 0, 800, 45)`, and
the second `height_for_width(WBUFF_RES_X)` call returns `44`: the run returns,
and the refraction texture is 800 by 45, the reflection texture 800 by 44. -/
theorem second_height_one_less :
    height_for_width (state_of_viewport 1600 91) WBUFF_RES_X = 45 ∧
    (∃ r1 s2, make_new_tex WBUFF_RES_X 45 (state_of_viewport 1600 91) = some r1 ∧
      render_refraction_tex tile_consts0 r1.1 r1.2 = some s2 ∧
      s2.viewport = ⟨0, 0, WBUFF_RES_X, 45⟩ ∧ height_for_width s2 WBUFF_RES_X = 44) ∧
    (∃ s' t1 t2, R_GL_DrawWater tile_consts0 map0 (state_of_viewport 1600 91) = some s' ∧
      Event.tex_image t1 WBUFF_RES_X 45 ∈ s'.log ∧ Event.tex_image t2 WBUFF_RES_X 44 ∈ s'.log) := by
  have h44 : ∀ s1 : State, s1.viewport = ⟨0, 0, WBUFF_RES_X, 45⟩ →
      height_for_width s1 WBUFF_RES_X = 44 := fun s1 hv =>
    (height_for_width_congr s1 (state_of_viewport 800 45) _ (by rw [hv]; rfl)).trans
      height_for_width_800_45
  refine ⟨height_for_width_1600_91, ?_, ?_⟩
  · obtain ⟨r1, s2, hm, hr, hv⟩ := refraction_pass_returns tile_consts0
      (state_of_viewport 1600 91) 45 rfl (by decide)
    exact ⟨r1, s2, hm, hr, hv, h44 s2 hv⟩
  · obtain ⟨s', hrun⟩ := R_GL_DrawWater_returns tile_consts0 map0 (state_of_viewport 1600 91)
      (by decide) (by decide) rfl
      (by rw [height_for_width_1600_91]; decide)
      (by
        rw [height_for_width_1600_91]
        show 0 < height_for_width (state_of_viewport 800 45) WBUFF_RES_X
        rw [height_for_width_800_45]; decide)
    obtain ⟨-, -, -, -, -, -, -, -, hlog⟩ := R_GL_DrawWater_some tile_consts0 map0 _ s' 45 44 _ _
      height_for_width_1600_91 h44 rfl rfl hrun
    refine ⟨s', fresh_name ((state_of_viewport 1600 91).textures.map TexObj.name),
      fresh_name (fresh_name ((state_of_viewport 1600 91).textures.map TexObj.name) ::
        (state_of_viewport 1600 91).textures.map TexObj.name), hrun, ?_, ?_⟩ <;>
    rw [hlog] <;> simp

/-- C10, amended: for a viewport of positive width and height for which the
height `h1` of the refraction texture is positive and `WBUFF_RES_X * h1 ≤ 2^22`,
the refraction pass leaves the viewport `(0, 0, WBUFF_RES_X, h1)` and the second
`height_for_width(WBUFF_RES_X)` call returns `h1` or `h1 - 1`; the run returns
when no error is pending, and in every run that returns the refraction texture
was given the size `WBUFF_RES_X` by `h1` and the reflection texture the size
`WBUFF_RES_X` by `h1` or by `h1 - 1`, each pass drawing the scene with the
viewport at the size of its texture. -/
theorem R_GL_DrawWater_second_height (K : TileConsts) (m : map) (s : State) (h1 : ℤ)
    (hw : 0 < s.viewport.width) (hh : 0 < s.viewport.height)
    (hh1 : height_for_width s WBUFF_RES_X = h1) (hpos : 0 < h1)
    (hb : WBUFF_RES_X * h1 ≤ 2 ^ 22) :
    (∀ r1 s2, make_new_tex WBUFF_RES_X h1 s = some r1 →
      render_refraction_tex K r1.1 r1.2 = some s2 →
      s2.viewport = ⟨0, 0, WBUFF_RES_X, h1⟩ ∧
      (height_for_width s2 WBUFF_RES_X = h1 ∨ height_for_width s2 WBUFF_RES_X = h1 - 1)) ∧
    (s.gl_error = false → ∃ s', R_GL_DrawWater K m s = some s') ∧
    (∀ s', R_GL_DrawWater K m s = some s' →
      ∃ h2 t1 t2 fb cam1 cam2 rest, (h2 = h1 ∨ h2 = h1 - 1) ∧ t1 ≠ t2 ∧
        s'.log = s.log ++
          (Event.tex_image t1 WBUFF_RES_X h1 ::
           Event.render_scene fb ⟨0, 0, WBUFF_RES_X, h1⟩ (some (refraction_plane_eq K)) cam1 ::
           Event.tex_image t2 WBUFF_RES_X h2 ::
           Event.render_scene fb ⟨0, 0, WBUFF_RES_X, h2⟩ (some (reflection_plane_eq K)) cam2 ::
           rest)) := by
  have hcongr : ∀ s1 : State, s1.viewport = ⟨0, 0, WBUFF_RES_X, h1⟩ →
      height_for_width s1 WBUFF_RES_X =
        height_for_width (state_of_viewport WBUFF_RES_X h1) WBUFF_RES_X :=
    fun s1 hv => height_for_width_congr s1 (state_of_viewport _ _) _ (by rw [hv]; rfl)
  have hcases := second_height_cases (state_of_viewport WBUFF_RES_X h1) h1 rfl hpos hb
  refine ⟨?_, ?_, ?_⟩
  · intro r1 s2 hm hr
    rw [make_new_tex_eq] at hm
    split at hm
    · simp only [Option.some.injEq] at hm
      subst hm
      rw [render_refraction_tex_eq] at hr
      simp only [List.find?_cons_of_pos, decide_True] at hr
      split at hr
      · simp only [Option.some.injEq] at hr
        subst hr
        exact ⟨rfl, second_height_cases _ h1 rfl hpos hb⟩
      · simp at hr
    · simp at hm
  · intro he
    exact R_GL_DrawWater_returns K m s hw.le hh.le he (by rw [hh1]; exact hpos)
      (by rw [hh1]; exact second_height_pos _ h1 rfl hpos hb)
  · intro s' hrun
    obtain ⟨-, -, -, -, -, -, -, -, hlog⟩ :=
      R_GL_DrawWater_some K m s s' h1 _ _ _ hh1 hcongr rfl rfl hrun
    refine ⟨_, _, _, _, _, _, _, hcases, ?_, hlog⟩
    intro e
    have := fresh_name_not_mem
      (fresh_name (s.textures.map TexObj.name) :: s.textures.map TexObj.name)
    rw [← e] at this
    exact this (List.mem_cons_self _ _)

/-- C10, amended, on `state1`: the height of the refraction texture is `450`, and
the run returns. -/
theorem R_GL_DrawWater_second_height_witness :
    (0 < state1.viewport.width ∧ 0 < state1.viewport.height ∧
      height_for_width state1 WBUFF_RES_X = 450 ∧ (0 : ℤ) < 450 ∧
      WBUFF_RES_X * 450 ≤ 2 ^ 22) ∧
    ∃ s', R_GL_DrawWater tile_consts0 map0 state1 = some s' :=
  ⟨⟨by decide, by decide, height_for_width_state1, by decide, by decide⟩,
    (R_GL_DrawWater_second_height tile_consts0 map0 state1 450 (by decide) (by decide)
      height_for_width_state1 (by decide) (by decide)).2.1 rfl⟩

/-! ## Initialisation followed by shutdown -/

/-- C3, in the code: after a successful `R_GL_WaterInit`, `R_GL_WaterShutdown`
returns, and both textures and the vertex buffer created by the
initialisation are released, but the vertex array object it created is still
live: the set of live vertex array objects is not the one of before
`R_GL_WaterInit`. `R_GL_WaterShutdown` gives the name of the vertex array
object to `glDeleteBuffers`, which deletes buffer objects only. -/
theorem R_GL_WaterShutdown_leaks_vertex_array (K : TileConsts) (s s1 : State)
    (hinit : R_GL_WaterInit K s = some (true, s1)) :
    ∃ s2, R_GL_WaterShutdown s1 = some s2 ∧
      live_textures s2 = live_textures s ∧
      s1.s_ctx.surface.VBO ∉ live_buffers s2 ∧
      s1.s_ctx.surface.VAO ∉ live_vaos s ∧
      s1.s_ctx.surface.VAO ∈ live_vaos s2 ∧
      live_vaos s2 = s1.s_ctx.surface.VAO :: live_vaos s ∧
      live_vaos s2 ≠ live_vaos s := by
  obtain ⟨s2, hsd, ht, -, -, hv, hb⟩ := R_GL_WaterInit_then_Shutdown K s s1 hinit
  have hctx : s1.s_ctx.surface.VAO = fresh_name s.vaos ∧
      s1.s_ctx.surface.VBO = fresh_name (s.buffers.map BufObj.name) := by
    rw [R_GL_WaterInit_eq K s _ _ _ _ rfl rfl rfl rfl] at hinit
    split at hinit
    · split at hinit
      · split at hinit
        · simp only [Option.some.injEq, Prod.mk.injEq, true_and] at hinit
          subst hinit
          exact ⟨rfl, rfl⟩
        · simp at hinit
      · simp at hinit
    · simp at hinit
  refine ⟨s2, hsd, by rw [live_textures, ht, live_textures], ?_, ?_, ?_, ?_, ?_⟩
  · rw [hctx.2, live_buffers, hb]
    intro hmem
    obtain ⟨b, hb1, hb2⟩ := List.mem_map.1 hmem
    have hb3 := (List.mem_filter.1 hb1).1
    exact name_ne_fresh BufObj.name _ b hb3 hb2
  · rw [hctx.1]; exact fresh_name_not_mem _
  · rw [hctx.1, live_vaos, hv]; exact List.mem_cons_self _ _
  · rw [hctx.1, live_vaos, hv, live_vaos]
  · rw [live_vaos, hv, live_vaos]
    intro e
    have := congrArg List.length e
    simp at this

/-- A run of `R_GL_WaterInit` on `state0` succeeds. -/
theorem R_GL_WaterInit_state0 : ∃ s1, R_GL_WaterInit tile_consts0 state0 = some (true, s1) := by
  rw [R_GL_WaterInit_eq tile_consts0 state0 _ _ _ _ rfl rfl rfl rfl]
  simp [state0]

/-- C3 on `state0`: no vertex array object is live before `R_GL_WaterInit`, and
the vertex array object `1` is live after `R_GL_WaterShutdown`. -/
theorem R_GL_WaterShutdown_leaks_vertex_array_witness :
    ∃ s1, R_GL_WaterInit tile_consts0 state0 = some (true, s1) ∧
      ∃ s2, R_GL_WaterShutdown s1 = some s2 ∧ live_vaos state0 = [] ∧ live_vaos s2 = [1] := by
  obtain ⟨s1, h⟩ := R_GL_WaterInit_state0
  obtain ⟨s2, h2, -, -, -, -, hv, -⟩ :=
    R_GL_WaterShutdown_leaks_vertex_array tile_consts0 state0 s1 h
  have hctx : s1.s_ctx.surface.VAO = 1 := by
    rw [R_GL_WaterInit_eq tile_consts0 state0 _ _ _ _ rfl rfl rfl rfl] at h
    simp [state0] at h
    subst h
    rfl
  exact ⟨s1, h, s2, h2, rfl, by rw [hv, hctx]; rfl⟩

/-! ## Failure of the initialisation -/

/-- A load fails exactly for a path whose image does not load. -/
theorem R_Texture_Load_eq_none_iff (path : String) (s : State) :
    (R_Texture_Load path s).1 = none ↔ path ∉ s.assets := by
  unfold R_Texture_Load
  split <;> simp [*]

/-- C7: `R_GL_WaterInit` returns false exactly when one of the two loads
fails, a load failing exactly for a path whose image does not load. When the
distortion map does not load the function returns false in the state it was
called in: nothing was acquired and no mesh object is created. When the
distortion map loads and the normal map does not, the function returns false,
the texture of the distortion map has been freed, and the live textures,
vertex array objects and buffers and the textures kept by the texture service
are the ones of before the call. -/
theorem R_GL_WaterInit_failure (K : TileConsts) (s : State) :
    (∀ r s', R_GL_WaterInit K s = some (r, s') →
      (r = false ↔ (DUDV_PATH ∉ s.assets ∨ NORM_PATH ∉ s.assets))) ∧
    (∀ path (s0 : State), (R_Texture_Load path s0).1 = none ↔ path ∉ s0.assets) ∧
    (DUDV_PATH ∉ s.assets → R_GL_WaterInit K s = some (false, s)) ∧
    (∀ id, (R_Texture_Load DUDV_PATH s).1 = some id → NORM_PATH ∉ s.assets →
      ∃ s', R_GL_WaterInit K s = some (false, s') ∧
        id ∉ live_textures s' ∧
        live_textures s' = live_textures s ∧ live_vaos s' = live_vaos s ∧
        live_buffers s' = live_buffers s ∧ s'.tex_cache = s.tex_cache ∧
        s'.renderbuffers = s.renderbuffers ∧
        s'.framebuffers.map FbObj.name = s.framebuffers.map FbObj.name) := by
  have heq := R_GL_WaterInit_eq K s _ _ _ _ rfl rfl rfl rfl
  refine ⟨?_, R_Texture_Load_eq_none_iff, ?_, ?_⟩
  · intro r s' h
    rw [heq] at h
    split at h
    · split at h
      · split at h
        · simp only [Option.some.injEq, Prod.mk.injEq] at h
          obtain ⟨rfl, -⟩ := h
          simp [*]
        · simp at h
      · simp only [Option.some.injEq, Prod.mk.injEq] at h
        obtain ⟨rfl, -⟩ := h
        simp [*]
    · simp only [Option.some.injEq, Prod.mk.injEq] at h
      obtain ⟨rfl, -⟩ := h
      simp [*]
  · intro h
    rw [heq, if_neg h]
  · intro id hid h2
    have h1 : DUDV_PATH ∈ s.assets := by
      by_contra hc
      rw [(R_Texture_Load_eq_none_iff DUDV_PATH s).2 hc] at hid
      cases hid
    have hidv : id = fresh_name (s.textures.map TexObj.name) := by
      simp [R_Texture_Load, h1, glGenTextures] at hid
      exact hid.symm
    rw [heq, if_pos h1, if_neg h2]
    refine ⟨_, rfl, ?_, rfl, rfl, rfl, rfl, rfl, ?_⟩
    · rw [hidv]; exact fresh_name_not_mem _
    · simp only [List.map_map]
      apply List.map_congr_left
      intro f _
      simp only [Function.comp]
      split <;> rfl

/-- C7 on `state0` without the image of the normal map: `R_GL_WaterInit` returns
false and no texture, vertex array object or buffer is live. -/
theorem R_GL_WaterInit_failure_witness :
    ∃ s', R_GL_WaterInit tile_consts0 state0_no_normal = some (false, s') ∧
      live_textures s' = [] ∧ live_vaos s' = [] ∧ live_buffers s' = [] := by
  obtain ⟨s', h, -, ht, hv, hb, -⟩ :=
    (R_GL_WaterInit_failure tile_consts0 state0_no_normal).2.2.2 1
      (by simp [R_Texture_Load, state0_no_normal, state0, glGenTextures, fresh_name])
      (by decide)
  exact ⟨s', h, ht, hv, hb⟩

end Water
